import Mathlib

/-!
# Sens'it vibration firmware: event accumulation loop and payload encoder

A shallow embedding of `sdk/src/main.c`: the `build_payload` encoder and one pass of the
`while (TRUE)` loop of `main`, with the calls into the SDK library recorded in a call log.

Unsigned machine integers are natural numbers; every store into a narrower object is written
with the explicit reduction modulo `2 ^ width` that the C store performs.
-/

namespace SensIt

/-! ## Constants -/

/-- The value of `BATTERY_LVL_MIN` (2.7 V). -/
def BATTERY_LVL_MIN : Nat := 2700

/-- The value of `BATTERY_LVL_MAX` (4.25 V). -/
def BATTERY_LVL_MAX : Nat := 4250

/-- The value of `BATTERY_LVL_OFFSET` (2.7 V). -/
def BATTERY_LVL_OFFSET : Nat := 2700

/-- The value of `BATTERY_LVL_STEP` (50 mV). -/
def BATTERY_LVL_STEP : Nat := 50

/-- Constants that `main.c` takes from the SDK headers (`sensit_api.h`, `button.h`,
`radio_api.h`, `discovery.h`). The headers are not part of the sources at hand, so the
values are parameters of the development. -/
structure Consts where
  INTERRUPT_MASK_RTC : Nat
  INTERRUPT_MASK_BUTTON : Nat
  INTERRUPT_MASK_FXOS8700 : Nat
  MODE_VIBRATION : Nat
  BUTTON_FOUR_PRESSES : Nat
  RADIO_ERR_NONE : Nat
  RGB_MAGENTA : Nat
  RGB_OFF : Nat
  RGB_BLUE : Nat
  deriving DecidableEq, Repr

/-- One instantiation of the header constants, used to exercise the theorems on concrete
runs. Every theorem below holds for all instantiations. -/
def sampleConsts : Consts :=
  { INTERRUPT_MASK_RTC := 1
    INTERRUPT_MASK_BUTTON := 2
    INTERRUPT_MASK_FXOS8700 := 8
    MODE_VIBRATION := 4
    BUTTON_FOUR_PRESSES := 4
    RADIO_ERR_NONE := 0
    RGB_MAGENTA := 5
    RGB_OFF := 0
    RGB_BLUE := 1 }

/-! ## Data model -/

/-- The struct `payload_s`: one natural number per member. The bit-field members hold
values below `2 ^ width` (3, 5, 2, 1, 5 bits), the two counter members are `u8`. -/
structure payload_s where
  reserved : Nat
  battery : Nat
  special_value : Nat
  button : Nat
  mode : Nat
  event_counterMSB : Nat
  event_counterLSB : Nat
  deriving DecidableEq, Repr

/-- The struct `data_s`: `battery` and `event_counter` are `u16`, the flags are `bool`. -/
structure data_s where
  battery : Nat
  vibration : Bool
  event_counter : Nat
  button : Bool
  deriving DecidableEq, Repr

/-! ## The payload encoder -/

/-- The function `build_payload`, statement by statement. The first argument is the content
of `*payload` on entry. A store into an `n`-bit member keeps the value modulo `2 ^ n`.
In the last branch of the battery computation `BATTERY_LVL_MIN < data->battery`, so the
subtraction of `BATTERY_LVL_OFFSET` stays non-negative. -/
def build_payload (k : Consts) (payload : payload_s) (data : data_s) : payload_s :=
  let payload := { payload with reserved := 0b110 % 8 }
  let payload := { payload with mode := k.MODE_VIBRATION % 32 }
  let payload := { payload with button := data.button.toNat % 2 }
  let payload :=
    if data.battery ≤ BATTERY_LVL_MIN then
      { payload with battery := ((BATTERY_LVL_MIN - BATTERY_LVL_OFFSET) / BATTERY_LVL_STEP) % 32 }
    else if data.battery ≥ BATTERY_LVL_MAX then
      { payload with battery := ((BATTERY_LVL_MAX - BATTERY_LVL_OFFSET) / BATTERY_LVL_STEP) % 32 }
    else
      { payload with battery := ((data.battery - BATTERY_LVL_OFFSET) / BATTERY_LVL_STEP) % 32 }
  let payload := { payload with special_value := data.vibration.toNat % 4 }
  let payload := { payload with event_counterMSB := (data.event_counter >>> 8) % 256 }
  let payload := { payload with event_counterLSB := data.event_counter % 256 }
  payload

/-- The saturating clamp of the specification's `quantize`: `clamp(b, lo, hi)`. -/
def clamp (b lo hi : Nat) : Nat :=
  if b < lo then lo else if hi < b then hi else b

/-! ## The main loop -/

/-- Calls from `main` into the SDK library, with the arguments that matter and, for calls
that hand a value back, the value handed back. -/
inductive Call where
  | BATTERY_handler (level : Nat)
  | SENSIT_API_set_rgb_led (color : Nat)
  | BUTTON_handler (btn : Nat)
  | SENSIT_API_reset
  | FXOS8700_clear_transient_interrupt (flag : Bool)
  | RADIO_API_send_message (color : Nat) (payload : payload_s) (size : Nat) (err : Nat)
  | ERROR_parser_call (err : Nat)
  | SENSIT_API_sleep
  deriving DecidableEq, Repr

/-- The variables of `main` that live across loop passes, and the global
`pending_interrupt`. The locals `err` and `btn` are written before they are read in every
pass and are not kept. -/
structure LoopState where
  pending_interrupt : Nat
  send : Bool
  battery_level : Nat
  data : data_s
  payload : payload_s
  deriving DecidableEq, Repr

/-- What the environment supplies to one loop pass: the interrupt bits raised by the
interrupt handlers since the previous pass, and the values handed back by the SDK calls
(each is used only if the pass makes the call). -/
structure PassInput where
  arrived : Nat
  battery_level : Nat
  btn : Nat
  vibration : Bool
  err : Nat
  deriving DecidableEq, Repr

/-- State after a stage of a pass, the calls the stage made, and whether the stage ended in
`SENSIT_API_reset`. -/
structure PassResult where
  state : LoopState
  trace : List Call
  reset : Bool
  deriving DecidableEq, Repr

/-- The state on entry to the loop (line 130): `send = FALSE`, `data = {0}`,
`pending_interrupt = 0`; `battery_level` and `payload` carry no initialiser, so their
content is arbitrary. -/
def init (battery_level : Nat) (payload : payload_s) : LoopState :=
  { pending_interrupt := 0
    send := false
    battery_level := battery_level
    data := { battery := 0, vibration := false, event_counter := 0, button := false }
    payload := payload }

/-- The C expression `p & ~m` stored back into `p`: the bits of `p` that are not in `m`
(see `testBit_clear_mask`). -/
def clear_mask (p m : Nat) : Nat := p ^^^ (p &&& m)

/-- The test `(pending_interrupt & m) == m`. -/
def is_pending (p m : Nat) : Bool := decide (p &&& m = m)

/-- Lines 138-143, the RTC alarm interrupt handler. -/
def rtc_stage (k : Consts) (s : LoopState) : LoopState :=
  if is_pending s.pending_interrupt k.INTERRUPT_MASK_RTC then
    { s with
      send := true
      pending_interrupt := clear_mask s.pending_interrupt k.INTERRUPT_MASK_RTC }
  else s

/-- Modelled from the spec: `SENSIT_API_reset` is a function of the SDK library whose code
is missing; per the specification the reset is terminal and the call does not return, so the
pass ends at the call. Lines 146-164, the button interrupt handler. -/
def button_stage (k : Consts) (s : LoopState) (i : PassInput) : PassResult :=
  if is_pending s.pending_interrupt k.INTERRUPT_MASK_BUTTON then
    let t := [Call.SENSIT_API_set_rgb_led k.RGB_MAGENTA, Call.BUTTON_handler i.btn,
      Call.SENSIT_API_set_rgb_led k.RGB_OFF]
    if i.btn = k.BUTTON_FOUR_PRESSES then
      { state := s, trace := t ++ [Call.SENSIT_API_reset], reset := true }
    else
      { state := { s with
          pending_interrupt := clear_mask s.pending_interrupt k.INTERRUPT_MASK_BUTTON }
        trace := t
        reset := false }
  else { state := s, trace := [], reset := false }

/-- Lines 167-182, the accelerometer interrupt handler. The driver writes its flag into
`data.vibration`; the counter is a `u16`. -/
def motion_stage (k : Consts) (s : LoopState) (i : PassInput) : PassResult :=
  if is_pending s.pending_interrupt k.INTERRUPT_MASK_FXOS8700 then
    let data := { s.data with vibration := i.vibration }
    let data :=
      if data.vibration = true then
        { data with event_counter := (data.event_counter + 1) % 65536 }
      else data
    { state := { s with
        data := data
        pending_interrupt := clear_mask s.pending_interrupt k.INTERRUPT_MASK_FXOS8700 }
      trace := [Call.FXOS8700_clear_transient_interrupt i.vibration]
      reset := false }
  else { state := s, trace := [], reset := false }

/-- Lines 185-209, building and sending the message. `ERROR_parser` receives `err` by value
and is recorded in the call log only. -/
def send_stage (k : Consts) (s : LoopState) (i : PassInput) : PassResult :=
  if s.send = true then
    let payload := build_payload k s.payload s.data
    let t := [Call.RADIO_API_send_message k.RGB_BLUE payload 4 i.err,
      Call.ERROR_parser_call i.err]
    let data :=
      if i.err = k.RADIO_ERR_NONE then { s.data with event_counter := 0 } else s.data
    let data := { data with vibration := false }
    let data := { data with button := false }
    { state := { s with payload := payload, data := data, send := false }
      trace := t
      reset := false }
  else { state := s, trace := [], reset := false }

/-- Lines 212-216, the request to sleep. -/
def sleep_stage (s : LoopState) : List Call :=
  if s.pending_interrupt = 0 then [Call.SENSIT_API_sleep] else []

/-- One pass of the `while (TRUE)` loop (lines 130-217), run from `s` with no interrupt
raised during the pass. -/
def pass (k : Consts) (s : LoopState) (i : PassInput) : PassResult :=
  let s := { s with battery_level := i.battery_level % 65536 }
  let t := [Call.BATTERY_handler (i.battery_level % 65536)]
  let s := rtc_stage k s
  let b := button_stage k s i
  if b.reset then { state := b.state, trace := t ++ b.trace, reset := true }
  else
    let m := motion_stage k b.state i
    let r := send_stage k m.state i
    { state := r.state
      trace := t ++ b.trace ++ m.trace ++ r.trace ++ sleep_stage r.state
      reset := false }

/-- The interrupt handlers set bits of `pending_interrupt` between two passes. -/
def arrive (s : LoopState) (bits : Nat) : LoopState :=
  { s with pending_interrupt := s.pending_interrupt ||| bits }

/-- The next pass of the loop, after the interrupts of the input were raised. -/
def step (k : Consts) (s : LoopState) (i : PassInput) : PassResult :=
  pass k (arrive s i.arrived) i

/-- The state after a run of passes. A pass that ends in a reset ends the run. -/
def runState (k : Consts) : LoopState → List PassInput → LoopState
  | s, [] => s
  | s, i :: is =>
    if (step k s i).reset then (step k s i).state else runState k (step k s i).state is

/-- The results of the passes of a run, in order. A pass that ends in a reset ends the
run. -/
def runResults (k : Consts) : LoopState → List PassInput → List PassResult
  | _, [] => []
  | s, i :: is =>
    step k s i :: (if (step k s i).reset then [] else runResults k (step k s i).state is)

/-- The state of a pass at line 185, before the test of `send`. -/
def before_send (k : Consts) (s : LoopState) (i : PassInput) : LoopState :=
  (motion_stage k (button_stage k
    (rtc_stage k { s with battery_level := i.battery_level % 65536 }) i).state i).state

/-- A pass input in which the motion interrupt was raised and the driver reports motion. -/
def motionInput : PassInput :=
  { arrived := 8, battery_level := 3000, btn := 0, vibration := true, err := 0 }

/-- A state between two passes with no interrupt pending, vibration flag `v` and counter
`c`. -/
def quietState (v : Bool) (c : Nat) : LoopState :=
  { pending_interrupt := 0
    send := false
    battery_level := 3000
    data := { battery := 0, vibration := v, event_counter := c, button := false }
    payload := ⟨0, 0, 0, 0, 0, 0, 0⟩ }

/-! ## Observations on a pass -/

/-- The messages handed to the radio in a call log, each with the result of the radio. -/
def sentMessages : List Call → List (payload_s × Nat)
  | [] => []
  | Call.RADIO_API_send_message _ p _ e :: t => (p, e) :: sentMessages t
  | _ :: t => sentMessages t

/-- The messages handed to the radio in a pass. -/
def PassResult.sent (r : PassResult) : List (payload_s × Nat) := sentMessages r.trace

/-- The pass queried the motion driver and the driver reported motion. -/
def PassResult.motionDetected (r : PassResult) : Bool :=
  decide (Call.FXOS8700_clear_transient_interrupt true ∈ r.trace)

/-- Number of calls to `SENSIT_API_reset` in a call log. -/
def resetCalls (t : List Call) : Nat := t.count Call.SENSIT_API_reset

/-- Number of passes of a run in which motion was detected. -/
def motionEvents (rs : List PassResult) : Nat := rs.countP PassResult.motionDetected

/-- The 16-bit counter that the two counter bytes of a payload encode. -/
def payload_s.counter (p : payload_s) : Nat := 256 * p.event_counterMSB + p.event_counterLSB

/-- The value that `build_payload` assigns to `payload->battery` (lines 228-239), before the
store into the 5-bit member. -/
def battery_level_value (data : data_s) : Nat :=
  if data.battery ≤ BATTERY_LVL_MIN then
    (BATTERY_LVL_MIN - BATTERY_LVL_OFFSET) / BATTERY_LVL_STEP
  else if data.battery ≥ BATTERY_LVL_MAX then
    (BATTERY_LVL_MAX - BATTERY_LVL_OFFSET) / BATTERY_LVL_STEP
  else
    (data.battery - BATTERY_LVL_OFFSET) / BATTERY_LVL_STEP

/-- The flag of the last query of the motion driver in a call log, and `v` if the log holds
no query. -/
def lastFlag (v : Bool) : List Call → Bool
  | [] => v
  | Call.FXOS8700_clear_transient_interrupt f :: t => lastFlag f t
  | _ :: t => lastFlag v t

/-- The flag of the last query of the motion driver in a run, and `v` if the run holds no
query. -/
def lastRunFlag (v : Bool) : List PassResult → Bool
  | [] => v
  | r :: rs => lastRunFlag (lastFlag v r.trace) rs

/-- Number of calls to `SENSIT_API_sleep` in a call log. -/
def sleepCalls (t : List Call) : Nat := t.count Call.SENSIT_API_sleep

/-! ## Properties of the encoder -/

/-- The battery field of a built payload is the clamped, offset and scaled battery value
of the snapshot. -/
theorem battery_field_clamp (k : Consts) (payload : payload_s) (data : data_s) :
    (build_payload k payload data).battery = (clamp data.battery 2700 4250 - 2700) / 50 := by
  simp only [build_payload, clamp, BATTERY_LVL_MIN, BATTERY_LVL_MAX, BATTERY_LVL_OFFSET,
    BATTERY_LVL_STEP]
  split_ifs <;> (try dsimp only) <;> omega

/-- C1: for every 16-bit battery value in the snapshot, the battery field of the built
payload is `(clamp(b, 2700, 4250) - 2700) / 50`; it is 0 below 2700, 31 above 4250 and
`(b - 2700) / 50` in between. -/
theorem build_payload_battery (k : Consts) (payload : payload_s) (data : data_s) :
    (build_payload k payload data).battery = (clamp data.battery 2700 4250 - 2700) / 50 ∧
    (data.battery < 2700 → (build_payload k payload data).battery = 0) ∧
    (4250 < data.battery → (build_payload k payload data).battery = 31) ∧
    (2700 ≤ data.battery → data.battery ≤ 4250 →
      (build_payload k payload data).battery = (data.battery - 2700) / 50) := by
  simp only [build_payload, clamp, BATTERY_LVL_MIN, BATTERY_LVL_MAX, BATTERY_LVL_OFFSET,
    BATTERY_LVL_STEP]
  refine ⟨?_, ?_, ?_, ?_⟩
  · split_ifs <;> (try dsimp only) <;> omega
  · intro h
    split_ifs <;> (try dsimp only) <;> omega
  · intro h
    split_ifs <;> (try dsimp only) <;> omega
  · intro h1 h2
    split_ifs <;> (try dsimp only) <;> omega

/-- Witness of C1: 3000 mV lies in the linear range and gives level 6. -/
theorem build_payload_battery_witness :
    (build_payload sampleConsts ⟨0, 0, 0, 0, 0, 0, 0⟩ ⟨3000, false, 0, false⟩).battery =
      (3000 - 2700) / 50 :=
  (build_payload_battery sampleConsts ⟨0, 0, 0, 0, 0, 0, 0⟩ ⟨3000, false, 0, false⟩).2.2.2
    (by decide) (by decide)

/-- The two counter bytes of a built payload are the high and the low byte of the
snapshot's 16-bit counter. -/
theorem build_payload_counter_bytes (k : Consts) (payload : payload_s) (data : data_s) :
    (build_payload k payload data).event_counterMSB = (data.event_counter / 256) % 256 ∧
    (build_payload k payload data).event_counterLSB = data.event_counter % 256 := by
  simp [build_payload, Nat.shiftRight_eq_div_pow]

/-- The counter encoded in a built payload is the snapshot's counter when that is a 16-bit
value. -/
theorem build_payload_counter_eq (k : Consts) (payload : payload_s) (data : data_s)
    (h : data.event_counter < 65536) :
    (build_payload k payload data).counter = data.event_counter := by
  have hb := build_payload_counter_bytes k payload data
  simp only [payload_s.counter, hb.1, hb.2]
  omega

/-- The content of the payload on entry to `build_payload` has no influence on the payload
on exit. -/
theorem build_payload_overwrites (k : Consts) (p q : payload_s) (data : data_s) :
    build_payload k p data = build_payload k q data := by
  simp only [build_payload]
  split_ifs <;> rfl

/-- C7: for every 16-bit counter value `c`, byte 2 of the payload is `c / 256`, byte 3 is
`c mod 256`, and `256 * byte2 + byte3 = c`. -/
theorem build_payload_event_counter (k : Consts) (payload : payload_s) (data : data_s)
    (h : data.event_counter < 65536) :
    (build_payload k payload data).event_counterMSB = data.event_counter / 256 ∧
    (build_payload k payload data).event_counterLSB = data.event_counter % 256 ∧
    256 * (build_payload k payload data).event_counterMSB +
      (build_payload k payload data).event_counterLSB = data.event_counter := by
  have hb := build_payload_counter_bytes k payload data
  rw [hb.1, hb.2]
  omega

/-- Witness of C7: the counter value 0xABCD is split into 0xAB and 0xCD. -/
theorem build_payload_event_counter_witness :
    (build_payload sampleConsts ⟨0, 0, 0, 0, 0, 0, 0⟩ ⟨0, false, 0xABCD, false⟩).event_counterMSB
        = 0xABCD / 256 ∧
    (build_payload sampleConsts ⟨0, 0, 0, 0, 0, 0, 0⟩ ⟨0, false, 0xABCD, false⟩).event_counterLSB
        = 0xABCD % 256 ∧
    256 * (build_payload sampleConsts ⟨0, 0, 0, 0, 0, 0, 0⟩
        ⟨0, false, 0xABCD, false⟩).event_counterMSB +
      (build_payload sampleConsts ⟨0, 0, 0, 0, 0, 0, 0⟩
        ⟨0, false, 0xABCD, false⟩).event_counterLSB = 0xABCD :=
  build_payload_event_counter sampleConsts ⟨0, 0, 0, 0, 0, 0, 0⟩ ⟨0, false, 0xABCD, false⟩
    (by decide)

/-- C10: the built payload depends on the snapshot alone: two different prior contents of
the payload buffer give the same payload, and encoding the same snapshot a second time
gives the same payload again. -/
theorem build_payload_deterministic (k : Consts) (p q : payload_s) (data : data_s) :
    build_payload k p data = build_payload k q data ∧
    build_payload k (build_payload k p data) data = build_payload k p data :=
  ⟨build_payload_overwrites k p q data, build_payload_overwrites k _ p data⟩

/-- The members of the payload for the snapshot battery = 3000, vibration, counter = 5, no
button: reserved 0b110, battery 6, special value 1, button 0, the mode constant, counter
bytes 0 and 5. -/
theorem build_payload_scenario_members (k : Consts) (p : payload_s) :
    build_payload k p ⟨3000, true, 5, false⟩ =
      { reserved := 0b110, battery := 6, special_value := 1, button := 0,
        mode := k.MODE_VIBRATION % 32, event_counterMSB := 0, event_counterLSB := 5 } := by
  simp [build_payload, BATTERY_LVL_MIN, BATTERY_LVL_MAX, BATTERY_LVL_OFFSET, BATTERY_LVL_STEP]

/-! ## Stage lemmas -/

/-- The messages of a concatenated call log. -/
theorem sentMessages_append (a b : List Call) :
    sentMessages (a ++ b) = sentMessages a ++ sentMessages b := by
  induction a with
  | nil => rfl
  | cons c t ih => cases c <;> simp [sentMessages, ih]

/-- The sleep request hands nothing to the radio. -/
theorem sentMessages_sleep_stage (s : LoopState) : sentMessages (sleep_stage s) = [] := by
  unfold sleep_stage
  split_ifs <;> rfl

/-- The sleep request does not query the motion driver. -/
theorem motion_not_mem_sleep_stage (s : LoopState) :
    Call.FXOS8700_clear_transient_interrupt true ∉ sleep_stage s := by
  unfold sleep_stage
  split_ifs <;> simp

/-- The RTC handler touches only `send` and the pending mask. -/
theorem rtc_stage_frame (k : Consts) (s : LoopState) :
    (rtc_stage k s).data = s.data ∧ (rtc_stage k s).payload = s.payload ∧
    (rtc_stage k s).battery_level = s.battery_level ∧
    (rtc_stage k s).send = (s.send || is_pending s.pending_interrupt k.INTERRUPT_MASK_RTC) := by
  unfold rtc_stage
  split_ifs with h <;> simp [h]

/-- The button handler leaves `data`, `payload` and `send` alone, sends nothing and does not
query the motion driver. -/
theorem button_stage_frame (k : Consts) (s : LoopState) (i : PassInput) :
    (button_stage k s i).state.data = s.data ∧ (button_stage k s i).state.payload = s.payload ∧
    (button_stage k s i).state.send = s.send ∧
    sentMessages (button_stage k s i).trace = [] ∧
    Call.FXOS8700_clear_transient_interrupt true ∉ (button_stage k s i).trace := by
  unfold button_stage
  split_ifs <;> simp [sentMessages]

/-- The accelerometer handler leaves `payload`, `send`, `data.battery` and `data.button`
alone and sends nothing. -/
theorem motion_stage_frame (k : Consts) (s : LoopState) (i : PassInput) :
    (motion_stage k s i).state.payload = s.payload ∧
    (motion_stage k s i).state.send = s.send ∧
    (motion_stage k s i).state.data.battery = s.data.battery ∧
    (motion_stage k s i).state.data.button = s.data.button ∧
    sentMessages (motion_stage k s i).trace = [] := by
  unfold motion_stage
  cases hv : i.vibration <;> split_ifs <;> simp [sentMessages]

/-- The accelerometer handler increments the counter, modulo 65536, exactly if the driver
was queried and reported motion. -/
theorem motion_stage_counter (k : Consts) (s : LoopState) (i : PassInput) :
    (motion_stage k s i).state.data.event_counter =
      if Call.FXOS8700_clear_transient_interrupt true ∈ (motion_stage k s i).trace then
        (s.data.event_counter + 1) % 65536
      else s.data.event_counter := by
  unfold motion_stage
  split_ifs <;> simp_all

/-- With `send` clear, lines 185-209 do nothing. -/
theorem send_stage_idle (k : Consts) (s : LoopState) (i : PassInput) (h : s.send = false) :
    send_stage k s i = { state := s, trace := [], reset := false } := by
  simp [send_stage, h]

/-- With `send` set, lines 185-209 hand the built payload to the radio once, clear both flags
and `send`, and clear the counter exactly if the radio reports no error. -/
theorem send_stage_sends (k : Consts) (s : LoopState) (i : PassInput) (h : s.send = true) :
    sentMessages (send_stage k s i).trace = [(build_payload k s.payload s.data, i.err)] ∧
    (send_stage k s i).state.data.vibration = false ∧
    (send_stage k s i).state.data.button = false ∧
    (send_stage k s i).state.data.battery = s.data.battery ∧
    (send_stage k s i).state.send = false ∧
    (send_stage k s i).state.data.event_counter =
      if i.err = k.RADIO_ERR_NONE then 0 else s.data.event_counter := by
  unfold send_stage
  simp only [h, if_true]
  split_ifs <;> simp [sentMessages]

/-- Lines 185-209 do not query the motion driver. -/
theorem motion_not_mem_send_stage (k : Consts) (s : LoopState) (i : PassInput) :
    Call.FXOS8700_clear_transient_interrupt true ∉ (send_stage k s i).trace := by
  unfold send_stage
  split_ifs <;> simp

/-- A pass ends in a reset exactly if its button handler does. -/
theorem pass_reset_eq (k : Consts) (s : LoopState) (i : PassInput) :
    (pass k s i).reset =
      (button_stage k (rtc_stage k { s with battery_level := i.battery_level % 65536 }) i).reset := by
  unfold pass
  dsimp only
  split_ifs with h <;> simp [h]

/-- A pass that does not end in a reset is lines 185-209 run on the state reached at line
185; motion is detected in it exactly if the accelerometer handler saw it. -/
theorem pass_no_reset (k : Consts) (s : LoopState) (i : PassInput)
    (h : (pass k s i).reset = false) :
    (pass k s i).state = (send_stage k (before_send k s i) i).state ∧
    (pass k s i).sent = sentMessages (send_stage k (before_send k s i) i).trace ∧
    ((pass k s i).motionDetected = true ↔
      Call.FXOS8700_clear_transient_interrupt true ∈
        (motion_stage k (button_stage k
          (rtc_stage k { s with battery_level := i.battery_level % 65536 }) i).state i).trace) := by
  rw [pass_reset_eq] at h
  have hb := button_stage_frame k (rtc_stage k { s with battery_level := i.battery_level % 65536 }) i
  have hm := motion_stage_frame k (button_stage k
    (rtc_stage k { s with battery_level := i.battery_level % 65536 }) i).state i
  refine ⟨?_, ?_, ?_⟩
  · simp [pass, h, before_send]
  · simp [pass, h, before_send, PassResult.sent, sentMessages_append, sentMessages_sleep_stage,
      hb.2.2.2.1, hm.2.2.2.2, sentMessages]
  · simp [pass, h, PassResult.motionDetected, hb.2.2.2.2, motion_not_mem_send_stage,
      motion_not_mem_sleep_stage]


/-- Before the test of `send`, the payload buffer is untouched and `send` is set exactly if
it was set already or the timer interrupt was pending. -/
theorem before_send_frame (k : Consts) (s : LoopState) (i : PassInput) :
    (before_send k s i).payload = s.payload ∧
    (before_send k s i).data.battery = s.data.battery ∧
    (before_send k s i).send =
      (s.send || is_pending s.pending_interrupt k.INTERRUPT_MASK_RTC) := by
  have hr := rtc_stage_frame k { s with battery_level := i.battery_level % 65536 }
  have hb := button_stage_frame k (rtc_stage k { s with battery_level := i.battery_level % 65536 }) i
  have hm := motion_stage_frame k (button_stage k
    (rtc_stage k { s with battery_level := i.battery_level % 65536 }) i).state i
  unfold before_send
  refine ⟨?_, ?_, ?_⟩
  · rw [hm.1, hb.2.1, hr.2.1]
  · rw [hm.2.2.1, hb.1, hr.1]
  · rw [hm.2.1, hb.2.2.1, hr.2.2.2]

/-- Before the test of `send`, the counter is the old counter plus the motion detected in
the pass, as a 16-bit value. -/
theorem before_send_counter (k : Consts) (s : LoopState) (i : PassInput)
    (hc : s.data.event_counter < 65536) (h : (pass k s i).reset = false) :
    (before_send k s i).data.event_counter =
      (s.data.event_counter + (pass k s i).motionDetected.toNat) % 65536 := by
  obtain ⟨_, _, hmo⟩ := pass_no_reset k s i h
  have hr := rtc_stage_frame k { s with battery_level := i.battery_level % 65536 }
  have hb := button_stage_frame k (rtc_stage k { s with battery_level := i.battery_level % 65536 }) i
  have hcnt := motion_stage_counter k (button_stage k
    (rtc_stage k { s with battery_level := i.battery_level % 65536 }) i).state i
  unfold before_send
  rw [hcnt, hb.1, hr.1]
  cases hd : (pass k s i).motionDetected
  · have : ¬ (pass k s i).motionDetected = true := by simp [hd]
    rw [hmo] at this
    simp only [this, if_false, Bool.toNat_false]
    omega
  · rw [hmo] at hd
    simp [hd]

/-- Summary of a pass that does not end in a reset: either `send` is not set, nothing is
sent and the counter is the old counter plus the motion detected in the pass, or `send` is
set, exactly one message is sent, it encodes that counter, and the counter is cleared if and
only if the radio reports no error. -/
theorem pass_summary (k : Consts) (s : LoopState) (i : PassInput)
    (hc : s.data.event_counter < 65536) (h : (pass k s i).reset = false) :
    (pass k s i).state.send = false ∧
    (((before_send k s i).send = false ∧ (pass k s i).sent = [] ∧
      (pass k s i).state.data.event_counter =
        (s.data.event_counter + (pass k s i).motionDetected.toNat) % 65536) ∨
     ((before_send k s i).send = true ∧
      (pass k s i).sent = [(build_payload k s.payload (before_send k s i).data, i.err)] ∧
      (build_payload k s.payload (before_send k s i).data).counter =
        (s.data.event_counter + (pass k s i).motionDetected.toNat) % 65536 ∧
      (pass k s i).state.data.vibration = false ∧
      (pass k s i).state.data.button = false ∧
      (pass k s i).state.data.event_counter =
        if i.err = k.RADIO_ERR_NONE then 0
        else (s.data.event_counter + (pass k s i).motionDetected.toNat) % 65536)) := by
  obtain ⟨hst, hsent, _⟩ := pass_no_reset k s i h
  have hcount := before_send_counter k s i hc h
  have hpay := (before_send_frame k s i).1
  have hlt : (before_send k s i).data.event_counter < 65536 := by
    rw [hcount]; exact Nat.mod_lt _ (by norm_num)
  cases hs : (before_send k s i).send
  · rw [send_stage_idle k _ i hs] at hst hsent
    refine ⟨by rw [hst]; exact hs, Or.inl ⟨rfl, by rw [hsent]; rfl, by rw [hst]; exact hcount⟩⟩
  · obtain ⟨h1, h2, h3, _, h5, h6⟩ := send_stage_sends k (before_send k s i) i hs
    refine ⟨by rw [hst]; exact h5, Or.inr ⟨rfl, ?_, ?_, ?_, ?_, ?_⟩⟩
    · rw [hsent, h1, hpay]
    · rw [build_payload_counter_eq k _ _ hlt, hcount]
    · rw [hst]; exact h2
    · rw [hst]; exact h3
    · rw [hst, h6, hcount]

/-- Bit `j` of `p & ~m` is bit `j` of `p` and not bit `j` of `m`. -/
theorem testBit_clear_mask (p m j : Nat) :
    (clear_mask p m).testBit j = (p.testBit j && !m.testBit j) := by
  simp only [clear_mask, Nat.testBit_xor, Nat.testBit_and]
  cases p.testBit j <;> cases m.testBit j <;> rfl

/-- Clearing the bits of `a` does not change the bits of a mask `b` that shares no bit
with `a`. -/
theorem clear_mask_and_of_disjoint (p a b : Nat) (h : a &&& b = 0) :
    clear_mask p a &&& b = p &&& b := by
  apply Nat.eq_of_testBit_eq
  intro j
  have hj : (a &&& b).testBit j = false := by rw [h]; exact Nat.zero_testBit j
  rw [Nat.testBit_and] at hj
  simp only [Nat.testBit_and, testBit_clear_mask]
  cases hp : p.testBit j <;> cases ha : a.testBit j <;> cases hb : b.testBit j <;> simp_all

/-- Clearing the bits of `a` does not change whether a mask `b` sharing no bit with `a` is
pending. -/
theorem is_pending_clear_mask_of_disjoint (p a b : Nat) (h : a &&& b = 0) :
    is_pending (clear_mask p a) b = is_pending p b := by
  simp only [is_pending, clear_mask_and_of_disjoint p a b h]

/-- The RTC handler does not change whether the button interrupt is pending, when the two
masks share no bit. -/
theorem rtc_stage_pending_button (k : Consts) (s : LoopState)
    (h : k.INTERRUPT_MASK_RTC &&& k.INTERRUPT_MASK_BUTTON = 0) :
    is_pending (rtc_stage k s).pending_interrupt k.INTERRUPT_MASK_BUTTON =
      is_pending s.pending_interrupt k.INTERRUPT_MASK_BUTTON := by
  unfold rtc_stage
  split_ifs
  · exact is_pending_clear_mask_of_disjoint _ _ _ h
  · rfl

/-- A pass that ends in a reset calls `SENSIT_API_reset` once, sends nothing and leaves the
payload buffer as it was. -/
theorem pass_reset (k : Consts) (s : LoopState) (i : PassInput)
    (h : (pass k s i).reset = true) :
    resetCalls (pass k s i).trace = 1 ∧ (pass k s i).sent = [] ∧
    (pass k s i).state.payload = s.payload ∧ (pass k s i).state.data = s.data := by
  have hr := rtc_stage_frame k { s with battery_level := i.battery_level % 65536 }
  have hb := button_stage_frame k (rtc_stage k { s with battery_level := i.battery_level % 65536 }) i
  rw [pass_reset_eq] at h
  have hcount : resetCalls (button_stage k
      (rtc_stage k { s with battery_level := i.battery_level % 65536 }) i).trace = 1 := by
    revert h
    unfold button_stage
    split_ifs <;> simp [resetCalls]
  refine ⟨?_, ?_, ?_, ?_⟩
  · simp only [pass, h, if_true]
    simpa [resetCalls] using hcount
  · simp [pass, h, PassResult.sent, sentMessages, hb.2.2.2.1]
  · simp only [pass, h, if_true]
    rw [hb.2.1, hr.2.1]
  · simp only [pass, h, if_true]
    rw [hb.1, hr.1]

/-- The loop never writes `data.battery`: a pass leaves it as it was, and a payload sent in
the pass has the battery field that `build_payload` computes from it, whatever the battery
handler sampled. -/
theorem pass_battery (k : Consts) (s : LoopState) (i : PassInput) :
    (pass k s i).state.data.battery = s.data.battery ∧
    ∀ p e, (p, e) ∈ (pass k s i).sent →
      p.battery = (clamp s.data.battery 2700 4250 - 2700) / 50 := by
  have hbat := (before_send_frame k s i).2.1
  cases h : (pass k s i).reset
  · obtain ⟨hst, hsent, _⟩ := pass_no_reset k s i h
    cases hs : (before_send k s i).send
    · rw [send_stage_idle k _ i hs] at hst hsent
      refine ⟨by rw [hst]; exact hbat, ?_⟩
      intro p e hp
      rw [hsent] at hp
      simp [sentMessages] at hp
    · obtain ⟨h1, _, _, h4, _, _⟩ := send_stage_sends k (before_send k s i) i hs
      refine ⟨by rw [hst, h4]; exact hbat, ?_⟩
      intro p e hp
      rw [hsent, h1] at hp
      simp only [List.mem_singleton, Prod.mk.injEq] at hp
      rw [hp.1, battery_field_clamp, hbat]
  · obtain ⟨_, hsent, _, hdata⟩ := pass_reset k s i h
    refine ⟨by rw [hdata], ?_⟩
    intro p e hp
    rw [hsent] at hp
    simp at hp

/-- C3, the code at the failing input: the battery handler samples 3000 mV (level 6) in a
pass from the initial state with the timer interrupt pending; the payload sent in that pass
has battery field 0, and `data.battery` is still 0 after the pass. -/
theorem sampled_battery_not_encoded :
    (pass sampleConsts { init 0 ⟨0, 0, 0, 0, 0, 0, 0⟩ with pending_interrupt := 1 }
      ⟨0, 3000, 0, false, 0⟩).sent =
      [({ reserved := 6, battery := 0, special_value := 0, button := 0, mode := 4,
          event_counterMSB := 0, event_counterLSB := 0 }, 0)] ∧
    (pass sampleConsts { init 0 ⟨0, 0, 0, 0, 0, 0, 0⟩ with pending_interrupt := 1 }
      ⟨0, 3000, 0, false, 0⟩).state.battery_level = 3000 ∧
    (pass sampleConsts { init 0 ⟨0, 0, 0, 0, 0, 0, 0⟩ with pending_interrupt := 1 }
      ⟨0, 3000, 0, false, 0⟩).state.data.battery = 0 ∧
    (clamp 3000 2700 4250 - 2700) / 50 = 6 := by
  decide

/-- After a pass that hands a message to the radio, the two flags are clear, and the
counter is 0 or the encoded value according to the radio result. -/
theorem send_attempt_core (k : Consts) (s : LoopState) (i : PassInput)
    (p : payload_s) (e : Nat) (hc : s.data.event_counter < 65536)
    (hsent : (p, e) ∈ (pass k s i).sent) :
    (pass k s i).state.data.vibration = false ∧
    (pass k s i).state.data.button = false ∧
    (e ≠ k.RADIO_ERR_NONE → (pass k s i).state.data.event_counter = p.counter) ∧
    (e = k.RADIO_ERR_NONE → (pass k s i).state.data.event_counter = 0) := by
  cases h : (pass k s i).reset
  · obtain ⟨_, hsum⟩ := pass_summary k s i hc h
    rcases hsum with ⟨_, h0, _⟩ | ⟨_, h1, h2, h3, h4, h5⟩
    · rw [h0] at hsent
      simp at hsent
    · rw [h1] at hsent
      simp only [List.mem_singleton, Prod.mk.injEq] at hsent
      obtain ⟨hp, he⟩ := hsent
      subst hp he
      refine ⟨h3, h4, ?_, ?_⟩
      · intro hne
        rw [h5, if_neg hne, h2]
      · intro heq
        rw [h5, if_pos heq]
  · rw [(pass_reset k s i h).2.1] at hsent
    simp at hsent

/-- The counter after a pass from a 16-bit counter is a 16-bit value. -/
theorem step_counter_lt (k : Consts) (s : LoopState) (i : PassInput)
    (hc : s.data.event_counter < 65536) :
    (step k s i).state.data.event_counter < 65536 := by
  show (pass k (arrive s i.arrived) i).state.data.event_counter < 65536
  cases h : (pass k (arrive s i.arrived) i).reset
  · rcases (pass_summary k (arrive s i.arrived) i hc h).2 with ⟨_, _, h2⟩ | ⟨_, _, _, _, _, h5⟩
    · rw [h2]; exact Nat.mod_lt _ (by norm_num)
    · rw [h5]
      split_ifs
      · norm_num
      · exact Nat.mod_lt _ (by norm_num)
  · rw [(pass_reset k _ i h).2.2.2]
    exact hc

/-- C4: in a pass in which a message is handed to the radio, vibration and button are
false after the pass whatever the radio result; with a radio error the counter still has
the value encoded in the payload; with no radio error the counter is 0. -/
theorem send_attempt_clears (k : Consts) (s : LoopState) (i : PassInput)
    (p : payload_s) (e : Nat) (hc : s.data.event_counter < 65536)
    (hsent : (p, e) ∈ (pass k s i).sent) :
    (pass k s i).state.data.vibration = false ∧
    (pass k s i).state.data.button = false ∧
    (e ≠ k.RADIO_ERR_NONE → (pass k s i).state.data.event_counter = p.counter) ∧
    (e = k.RADIO_ERR_NONE → (pass k s i).state.data.event_counter = 0) :=
  send_attempt_core k s i p e hc hsent

/-- Witness of C4: a failed send (radio result 7) with vibration, button and counter 5
set beforehand. -/
theorem send_attempt_clears_witness :
    (pass sampleConsts ⟨1, false, 0, ⟨0, true, 5, true⟩, ⟨0, 0, 0, 0, 0, 0, 0⟩⟩
      ⟨0, 3000, 0, false, 7⟩).state.data.vibration = false ∧
    (pass sampleConsts ⟨1, false, 0, ⟨0, true, 5, true⟩, ⟨0, 0, 0, 0, 0, 0, 0⟩⟩
      ⟨0, 3000, 0, false, 7⟩).state.data.button = false ∧
    (7 ≠ sampleConsts.RADIO_ERR_NONE →
      (pass sampleConsts ⟨1, false, 0, ⟨0, true, 5, true⟩, ⟨0, 0, 0, 0, 0, 0, 0⟩⟩
        ⟨0, 3000, 0, false, 7⟩).state.data.event_counter =
      payload_s.counter ⟨6, 0, 1, 1, 4, 0, 5⟩) ∧
    (7 = sampleConsts.RADIO_ERR_NONE →
      (pass sampleConsts ⟨1, false, 0, ⟨0, true, 5, true⟩, ⟨0, 0, 0, 0, 0, 0, 0⟩⟩
        ⟨0, 3000, 0, false, 7⟩).state.data.event_counter = 0) :=
  send_attempt_clears sampleConsts ⟨1, false, 0, ⟨0, true, 5, true⟩, ⟨0, 0, 0, 0, 0, 0, 0⟩⟩
    ⟨0, 3000, 0, false, 7⟩ ⟨6, 0, 1, 1, 4, 0, 5⟩ 7 (by decide) (by decide)

/-- C8: in a pass in which the button interrupt is pending and the button handler reports
four presses, `SENSIT_API_reset` is called exactly once and no payload is built or sent,
whether or not the timer interrupt is pending as well. -/
theorem four_presses_reset_once (k : Consts) (s : LoopState) (i : PassInput)
    (hdisj : k.INTERRUPT_MASK_RTC &&& k.INTERRUPT_MASK_BUTTON = 0)
    (hbutton : is_pending s.pending_interrupt k.INTERRUPT_MASK_BUTTON = true)
    (hfour : i.btn = k.BUTTON_FOUR_PRESSES) :
    (pass k s i).reset = true ∧
    resetCalls (pass k s i).trace = 1 ∧
    (pass k s i).sent = [] ∧
    (pass k s i).state.payload = s.payload := by
  have hp := rtc_stage_pending_button k { s with battery_level := i.battery_level % 65536 } hdisj
  have hreset : (pass k s i).reset = true := by
    rw [pass_reset_eq]
    unfold button_stage
    rw [hp]
    simp [hbutton, hfour]
  obtain ⟨h1, h2, h3, _⟩ := pass_reset k s i hreset
  exact ⟨hreset, h1, h2, h3⟩

/-- Witness of C8: button and timer interrupt both pending (mask 3), four presses. -/
theorem four_presses_reset_once_witness :
    (pass sampleConsts ⟨3, false, 0, ⟨0, true, 5, false⟩, ⟨1, 2, 3, 0, 5, 6, 7⟩⟩
      ⟨0, 3000, 4, false, 0⟩).reset = true ∧
    resetCalls (pass sampleConsts ⟨3, false, 0, ⟨0, true, 5, false⟩, ⟨1, 2, 3, 0, 5, 6, 7⟩⟩
      ⟨0, 3000, 4, false, 0⟩).trace = 1 ∧
    (pass sampleConsts ⟨3, false, 0, ⟨0, true, 5, false⟩, ⟨1, 2, 3, 0, 5, 6, 7⟩⟩
      ⟨0, 3000, 4, false, 0⟩).sent = [] ∧
    (pass sampleConsts ⟨3, false, 0, ⟨0, true, 5, false⟩, ⟨1, 2, 3, 0, 5, 6, 7⟩⟩
      ⟨0, 3000, 4, false, 0⟩).state.payload = ⟨1, 2, 3, 0, 5, 6, 7⟩ :=
  four_presses_reset_once sampleConsts
    ⟨3, false, 0, ⟨0, true, 5, false⟩, ⟨1, 2, 3, 0, 5, 6, 7⟩⟩ ⟨0, 3000, 4, false, 0⟩
    (by decide) (by decide) (by decide)


/-! ## Runs of passes -/

/-- The results of a run whose first pass does not reset. -/
theorem runResults_cons (k : Consts) (s : LoopState) (i : PassInput) (is : List PassInput)
    (h : (step k s i).reset = false) :
    runResults k s (i :: is) = step k s i :: runResults k (step k s i).state is := by
  simp [runResults, h]

/-- The final state of a run whose first pass does not reset. -/
theorem runState_cons (k : Consts) (s : LoopState) (i : PassInput) (is : List PassInput)
    (h : (step k s i).reset = false) :
    runState k s (i :: is) = runState k (step k s i).state is := by
  simp [runState, h]

/-- The first pass of a run is among its results. -/
theorem step_mem_runResults (k : Consts) (s : LoopState) (i : PassInput)
    (is : List PassInput) : step k s i ∈ runResults k s (i :: is) := by
  simp [runResults]

/-- Counting the motion events of a run, pass by pass. -/
theorem motionEvents_cons (r : PassResult) (rs : List PassResult) :
    motionEvents (r :: rs) = motionEvents rs + r.motionDetected.toNat := by
  unfold motionEvents
  rw [List.countP_cons]
  cases r.motionDetected <;> simp

/-- A run without reset makes one pass per input. -/
theorem runResults_length (k : Consts) (s : LoopState) (ins : List PassInput)
    (h : ∀ r ∈ runResults k s ins, r.reset = false) :
    (runResults k s ins).length = ins.length := by
  induction ins generalizing s with
  | nil => rfl
  | cons i is ih =>
    have hr := h _ (step_mem_runResults k s i is)
    rw [runResults_cons k s i is hr] at h ⊢
    rw [List.length_cons, List.length_cons, ih]
    intro r hmem
    exact h r (List.mem_cons_of_mem _ hmem)

/-- Over a run with no reset and no successful send, the counter is the start value plus
the number of motion events, modulo 65536. -/
theorem run_counter (k : Consts) (s : LoopState) (ins : List PassInput)
    (hc : s.data.event_counter < 65536)
    (hq : ∀ r ∈ runResults k s ins,
      r.reset = false ∧ ∀ m ∈ r.sent, m.2 ≠ k.RADIO_ERR_NONE) :
    (runState k s ins).data.event_counter =
      (s.data.event_counter + motionEvents (runResults k s ins)) % 65536 := by
  induction ins generalizing s with
  | nil =>
    simp only [runState, runResults, motionEvents, List.countP_nil]
    omega
  | cons i is ih =>
    obtain ⟨hr, hs⟩ := hq _ (step_mem_runResults k s i is)
    rw [runResults_cons k s i is hr] at hq ⊢
    rw [runState_cons k s i is hr, motionEvents_cons]
    have hsum := (pass_summary k (arrive s i.arrived) i hc hr).2
    have hstep : (step k s i).state.data.event_counter =
        (s.data.event_counter + (step k s i).motionDetected.toNat) % 65536 := by
      rcases hsum with ⟨_, _, h2⟩ | ⟨_, h1, _, _, _, h5⟩
      · exact h2
      · have hmem : (build_payload k (arrive s i.arrived).payload
            (before_send k (arrive s i.arrived) i).data, i.err) ∈ (step k s i).sent := by
          show _ ∈ (pass k (arrive s i.arrived) i).sent
          rw [h1]
          exact List.mem_singleton_self _
        have hne : i.err ≠ k.RADIO_ERR_NONE := hs _ hmem
        show (pass k (arrive s i.arrived) i).state.data.event_counter = _
        rw [h5, if_neg hne]
        rfl
    have hlt : (step k s i).state.data.event_counter < 65536 := by
      rw [hstep]; exact Nat.mod_lt _ (by norm_num)
    rw [ih (step k s i).state hlt (fun r hmem => hq r (List.mem_cons_of_mem _ hmem)), hstep]
    omega


/-- If every pass detects motion, there are as many motion events as passes. -/
theorem motionEvents_of_all (rs : List PassResult)
    (h : ∀ r ∈ rs, r.motionDetected = true) : motionEvents rs = rs.length := by
  unfold motionEvents
  rw [List.countP_eq_length]
  exact h

/-- C5: a send fails with counter `c` encoded in the payload; the later passes `ins` make
no successful send and no reset; then a pass `fin` makes a successful send. With `m` the
number of motion events detected in the passes `ins` and `fin`, the counter is `c` after the
failed send, it is `c` plus the motion events so far (modulo 65536) before the pass `fin`,
the payload of `fin` encodes `(c + m) mod 65536`, and after `fin` the counter is 0. -/
theorem failed_send_accumulates (k : Consts) (s : LoopState) (i0 : PassInput)
    (ins : List PassInput) (fin : PassInput) (p0 pf : payload_s) (e0 : Nat)
    (hc : s.data.event_counter < 65536)
    (hfail : (step k s i0).sent = [(p0, e0)]) (he0 : e0 ≠ k.RADIO_ERR_NONE)
    (hquiet : ∀ r ∈ runResults k (step k s i0).state ins,
      r.reset = false ∧ ∀ m ∈ r.sent, m.2 ≠ k.RADIO_ERR_NONE)
    (hfin : (step k (runState k (step k s i0).state ins) fin).sent =
      [(pf, k.RADIO_ERR_NONE)]) :
    (step k s i0).state.data.event_counter = p0.counter ∧
    (runState k (step k s i0).state ins).data.event_counter =
      (p0.counter + motionEvents (runResults k (step k s i0).state ins)) % 65536 ∧
    pf.counter =
      (p0.counter + (motionEvents (runResults k (step k s i0).state ins) +
        (step k (runState k (step k s i0).state ins) fin).motionDetected.toNat)) % 65536 ∧
    (step k (runState k (step k s i0).state ins) fin).state.data.event_counter = 0 := by
  have hmem0 : (p0, e0) ∈ (pass k (arrive s i0.arrived) i0).sent := by
    show (p0, e0) ∈ (step k s i0).sent
    rw [hfail]
    exact List.mem_singleton_self _
  have h0 : (step k s i0).state.data.event_counter = p0.counter :=
    (send_attempt_core k (arrive s i0.arrived) i0 p0 e0 hc hmem0).2.2.1 he0
  have hp0 : p0.counter < 65536 := by
    rw [← h0]
    exact step_counter_lt k s i0 hc
  have hrun := run_counter k (step k s i0).state ins (by rw [h0]; exact hp0) hquiet
  rw [h0] at hrun
  have hlt : (runState k (step k s i0).state ins).data.event_counter < 65536 := by
    rw [hrun]; exact Nat.mod_lt _ (by norm_num)
  have hreset : (step k (runState k (step k s i0).state ins) fin).reset = false := by
    cases h : (step k (runState k (step k s i0).state ins) fin).reset
    · rfl
    · have := (pass_reset k _ fin h).2.1
      rw [show (pass k (arrive (runState k (step k s i0).state ins) fin.arrived) fin).sent =
        (step k (runState k (step k s i0).state ins) fin).sent from rfl, hfin] at this
      simp at this
  have hsum := (pass_summary k (arrive (runState k (step k s i0).state ins) fin.arrived) fin
    hlt hreset).2
  rcases hsum with ⟨_, h1, _⟩ | ⟨_, h1, h2, _, _, h5⟩
  · rw [show (pass k (arrive (runState k (step k s i0).state ins) fin.arrived) fin).sent =
      (step k (runState k (step k s i0).state ins) fin).sent from rfl, hfin] at h1
    simp at h1
  · rw [show (pass k (arrive (runState k (step k s i0).state ins) fin.arrived) fin).sent =
      (step k (runState k (step k s i0).state ins) fin).sent from rfl, hfin] at h1
    simp only [List.cons.injEq, Prod.mk.injEq, and_true] at h1
    obtain ⟨hpf, herr⟩ := h1
    refine ⟨h0, hrun, ?_, ?_⟩
    · rw [hpf, h2]
      show ((runState k (step k s i0).state ins).data.event_counter + _) % 65536 = _
      rw [hrun]
      show (_ + (step k (runState k (step k s i0).state ins) fin).motionDetected.toNat) % 65536
        = _
      omega
    · show (pass k (arrive (runState k (step k s i0).state ins) fin.arrived)
        fin).state.data.event_counter = 0
      rw [h5, if_pos herr.symm]


/-- Witness of C5: a failed send at counter 3, then a motion event, then a failed send with
a motion event, then a successful send that reports 5. -/
theorem failed_send_accumulates_witness :
    (step sampleConsts ⟨0, false, 0, ⟨0, false, 3, false⟩, ⟨0, 0, 0, 0, 0, 0, 0⟩⟩
      ⟨1, 3000, 0, false, 7⟩).state.data.event_counter = payload_s.counter ⟨6, 0, 0, 0, 4, 0, 3⟩ ∧
    (runState sampleConsts
      (step sampleConsts ⟨0, false, 0, ⟨0, false, 3, false⟩, ⟨0, 0, 0, 0, 0, 0, 0⟩⟩
        ⟨1, 3000, 0, false, 7⟩).state
      [⟨8, 3000, 0, true, 0⟩, ⟨9, 3000, 0, true, 7⟩]).data.event_counter =
      (payload_s.counter ⟨6, 0, 0, 0, 4, 0, 3⟩ + motionEvents (runResults sampleConsts
        (step sampleConsts ⟨0, false, 0, ⟨0, false, 3, false⟩, ⟨0, 0, 0, 0, 0, 0, 0⟩⟩
          ⟨1, 3000, 0, false, 7⟩).state
        [⟨8, 3000, 0, true, 0⟩, ⟨9, 3000, 0, true, 7⟩])) % 65536 ∧
    payload_s.counter ⟨6, 0, 0, 0, 4, 0, 5⟩ =
      (payload_s.counter ⟨6, 0, 0, 0, 4, 0, 3⟩ + (motionEvents (runResults sampleConsts
        (step sampleConsts ⟨0, false, 0, ⟨0, false, 3, false⟩, ⟨0, 0, 0, 0, 0, 0, 0⟩⟩
          ⟨1, 3000, 0, false, 7⟩).state
        [⟨8, 3000, 0, true, 0⟩, ⟨9, 3000, 0, true, 7⟩]) +
        (step sampleConsts (runState sampleConsts
          (step sampleConsts ⟨0, false, 0, ⟨0, false, 3, false⟩, ⟨0, 0, 0, 0, 0, 0, 0⟩⟩
            ⟨1, 3000, 0, false, 7⟩).state
          [⟨8, 3000, 0, true, 0⟩, ⟨9, 3000, 0, true, 7⟩])
          ⟨1, 3000, 0, false, 0⟩).motionDetected.toNat)) % 65536 ∧
    (step sampleConsts (runState sampleConsts
      (step sampleConsts ⟨0, false, 0, ⟨0, false, 3, false⟩, ⟨0, 0, 0, 0, 0, 0, 0⟩⟩
        ⟨1, 3000, 0, false, 7⟩).state
      [⟨8, 3000, 0, true, 0⟩, ⟨9, 3000, 0, true, 7⟩])
      ⟨1, 3000, 0, false, 0⟩).state.data.event_counter = 0 :=
  failed_send_accumulates sampleConsts
    ⟨0, false, 0, ⟨0, false, 3, false⟩, ⟨0, 0, 0, 0, 0, 0, 0⟩⟩ ⟨1, 3000, 0, false, 7⟩
    [⟨8, 3000, 0, true, 0⟩, ⟨9, 3000, 0, true, 7⟩] ⟨1, 3000, 0, false, 0⟩
    ⟨6, 0, 0, 0, 4, 0, 3⟩ ⟨6, 0, 0, 0, 4, 0, 5⟩ 7 (by decide) (by decide) (by decide)
    (by decide) (by decide)

/-- With the timer interrupt pending at the start of a pass, `send` is set at line 185. -/
theorem before_send_send_of_timer (k : Consts) (s : LoopState) (i : PassInput)
    (h : is_pending s.pending_interrupt k.INTERRUPT_MASK_RTC = true) :
    (before_send k s i).send = true := by
  rw [(before_send_frame k s i).2.2, h, Bool.or_true]

/-- C6: starting from counter 0, `n < 65536` passes that each detect motion and send
nothing, then a pass with the timer interrupt pending, no motion detected and a successful
send: that pass hands exactly one payload to the radio, its counter bytes encode `n`, and
the counter is 0 afterwards. -/
theorem motion_events_then_send (k : Consts) (s : LoopState) (ins : List PassInput)
    (fin : PassInput)
    (h0 : s.data.event_counter = 0) (hn : ins.length < 65536)
    (hmotion : ∀ r ∈ runResults k s ins,
      r.motionDetected = true ∧ r.sent = [] ∧ r.reset = false)
    (htimer : is_pending (arrive (runState k s ins) fin.arrived).pending_interrupt
      k.INTERRUPT_MASK_RTC = true)
    (hquiet : (step k (runState k s ins) fin).motionDetected = false)
    (hreset : (step k (runState k s ins) fin).reset = false)
    (hok : fin.err = k.RADIO_ERR_NONE) :
    ∃ p, (step k (runState k s ins) fin).sent = [(p, k.RADIO_ERR_NONE)] ∧
      p.event_counterMSB = ins.length / 256 ∧
      p.event_counterLSB = ins.length % 256 ∧
      (step k (runState k s ins) fin).state.data.event_counter = 0 := by
  have hq : ∀ r ∈ runResults k s ins,
      r.reset = false ∧ ∀ m ∈ r.sent, m.2 ≠ k.RADIO_ERR_NONE := by
    intro r hr
    obtain ⟨_, h2, h3⟩ := hmotion r hr
    refine ⟨h3, ?_⟩
    intro m hm
    rw [h2] at hm
    simp at hm
  have hrun := run_counter k s ins (by rw [h0]; norm_num) hq
  rw [motionEvents_of_all _ (fun r hr => (hmotion r hr).1),
    runResults_length k s ins (fun r hr => (hmotion r hr).2.2), h0, Nat.zero_add,
    Nat.mod_eq_of_lt hn] at hrun
  have hlt : (arrive (runState k s ins) fin.arrived).data.event_counter < 65536 := by
    show (runState k s ins).data.event_counter < 65536
    rw [hrun]; exact hn
  have hcnt := before_send_counter k (arrive (runState k s ins) fin.arrived) fin hlt hreset
  rw [show (pass k (arrive (runState k s ins) fin.arrived) fin).motionDetected =
      (step k (runState k s ins) fin).motionDetected from rfl, hquiet,
    show (arrive (runState k s ins) fin.arrived).data.event_counter =
      (runState k s ins).data.event_counter from rfl, hrun, Bool.toNat_false, Nat.add_zero,
    Nat.mod_eq_of_lt hn] at hcnt
  have hsend := before_send_send_of_timer k (arrive (runState k s ins) fin.arrived) fin htimer
  rcases (pass_summary k (arrive (runState k s ins) fin.arrived) fin hlt hreset).2 with
    ⟨hno, _, _⟩ | ⟨_, h1, _, _, _, h5⟩
  · rw [hsend] at hno
    exact absurd hno (by decide)
  · have hb := build_payload_counter_bytes k (arrive (runState k s ins) fin.arrived).payload
      (before_send k (arrive (runState k s ins) fin.arrived) fin).data
    refine ⟨build_payload k (arrive (runState k s ins) fin.arrived).payload
      (before_send k (arrive (runState k s ins) fin.arrived) fin).data, ?_, ?_, ?_, ?_⟩
    · show (pass k (arrive (runState k s ins) fin.arrived) fin).sent = _
      rw [h1, hok]
    · rw [hb.1, hcnt]
      omega
    · rw [hb.2, hcnt]
    · show (pass k (arrive (runState k s ins) fin.arrived) fin).state.data.event_counter = 0
      rw [h5, if_pos hok]

/-- Witness of C6: two motion events from the initial state, then the timer and a
successful send. -/
theorem motion_events_then_send_witness :
    ∃ p, (step sampleConsts (runState sampleConsts (init 0 ⟨0, 0, 0, 0, 0, 0, 0⟩)
        [⟨8, 3000, 0, true, 0⟩, ⟨8, 3000, 0, true, 0⟩]) ⟨1, 3000, 0, false, 0⟩).sent =
        [(p, sampleConsts.RADIO_ERR_NONE)] ∧
      p.event_counterMSB = [(⟨8, 3000, 0, true, 0⟩ : PassInput), ⟨8, 3000, 0, true, 0⟩].length / 256 ∧
      p.event_counterLSB = [(⟨8, 3000, 0, true, 0⟩ : PassInput), ⟨8, 3000, 0, true, 0⟩].length % 256 ∧
      (step sampleConsts (runState sampleConsts (init 0 ⟨0, 0, 0, 0, 0, 0, 0⟩)
        [⟨8, 3000, 0, true, 0⟩, ⟨8, 3000, 0, true, 0⟩])
        ⟨1, 3000, 0, false, 0⟩).state.data.event_counter = 0 :=
  motion_events_then_send sampleConsts (init 0 ⟨0, 0, 0, 0, 0, 0, 0⟩)
    [⟨8, 3000, 0, true, 0⟩, ⟨8, 3000, 0, true, 0⟩] ⟨1, 3000, 0, false, 0⟩
    (by decide) (by decide) (by decide) (by decide) (by decide) (by decide) (by decide)

/-- C9: over passes that each detect motion, with no successful send and no reset, the
counter advances by one per pass modulo 65536: 65536 such passes from 0 give 0 again, and
one such pass from 65535 gives 0. -/
theorem event_counter_wraps (k : Consts) (s : LoopState) (ins : List PassInput)
    (hc : s.data.event_counter < 65536)
    (hmotion : ∀ r ∈ runResults k s ins, r.motionDetected = true ∧ r.reset = false ∧
      ∀ m ∈ r.sent, m.2 ≠ k.RADIO_ERR_NONE) :
    (runState k s ins).data.event_counter = (s.data.event_counter + ins.length) % 65536 ∧
    (s.data.event_counter = 0 → ins.length = 65536 →
      (runState k s ins).data.event_counter = 0) ∧
    (s.data.event_counter = 65535 → ins.length = 1 →
      (runState k s ins).data.event_counter = 0) := by
  have hrun := run_counter k s ins hc (fun r hr => (hmotion r hr).2)
  rw [motionEvents_of_all _ (fun r hr => (hmotion r hr).1),
    runResults_length k s ins (fun r hr => (hmotion r hr).2.1)] at hrun
  refine ⟨hrun, ?_, ?_⟩
  · intro h0 hlen
    rw [hrun, h0, hlen]
  · intro h0 hlen
    rw [hrun, h0, hlen]


/-- One pass on `motionInput` from a quiet state: the counter advances by one. -/
theorem step_motionInput (v : Bool) (c : Nat) :
    step sampleConsts (quietState v c) motionInput =
      { state := quietState true ((c + 1) % 65536)
        trace := [Call.BATTERY_handler 3000, Call.FXOS8700_clear_transient_interrupt true,
          Call.SENSIT_API_sleep]
        reset := false } := by
  simp [step, arrive, pass, rtc_stage, button_stage, motion_stage, send_stage, sleep_stage,
    is_pending, clear_mask, quietState, motionInput, sampleConsts]

/-- Every pass of a run on `n` copies of `motionInput` detects motion, does not reset and
sends nothing. -/
theorem motion_run_replicate (n : Nat) (v : Bool) (c : Nat) :
    ∀ r ∈ runResults sampleConsts (quietState v c) (List.replicate n motionInput),
      r.motionDetected = true ∧ r.reset = false ∧
      ∀ m ∈ r.sent, m.2 ≠ sampleConsts.RADIO_ERR_NONE := by
  induction n generalizing v c with
  | zero =>
    intro r hr
    simp [runResults] at hr
  | succ n ih =>
    intro r hr
    rw [List.replicate_succ, runResults_cons _ _ _ _ (by rw [step_motionInput]),
      step_motionInput, List.mem_cons] at hr
    rcases hr with hr | hr
    · subst hr
      simp [PassResult.motionDetected, PassResult.sent, sentMessages]
    · exact ih true _ r hr

/-- Witness of C9: 65536 motion passes from counter 0, and one motion pass from counter
65535. -/
theorem event_counter_wraps_witness :
    (runState sampleConsts (quietState false 0)
      (List.replicate 65536 motionInput)).data.event_counter = 0 ∧
    (runState sampleConsts (quietState true 65535) [motionInput]).data.event_counter = 0 :=
  ⟨(event_counter_wraps sampleConsts (quietState false 0) (List.replicate 65536 motionInput)
      (by decide) (motion_run_replicate 65536 false 0)).2.1 rfl (List.length_replicate _ _),
    (event_counter_wraps sampleConsts (quietState true 65535) [motionInput]
      (by decide) (by decide)).2.2 rfl rfl⟩



/-! ## Range and monotonicity of the battery level -/

/-- The battery member of a built payload is the assigned value reduced modulo 32. -/
theorem build_payload_battery_store (k : Consts) (payload : payload_s) (data : data_s) :
    (build_payload k payload data).battery = battery_level_value data % 32 := by
  simp only [build_payload, battery_level_value]
  split_ifs <;> rfl

/-- The value assigned to the battery member is at most 31. -/
theorem battery_level_value_le (data : data_s) : battery_level_value data ≤ 31 := by
  simp only [battery_level_value, BATTERY_LVL_MIN, BATTERY_LVL_MAX, BATTERY_LVL_OFFSET,
    BATTERY_LVL_STEP]
  split_ifs <;> omega

/-- C11: for every battery value, the value that `build_payload` computes for the battery
field lies in [0, 31], so the 5-bit member holds exactly that value. -/
theorem battery_field_in_range (k : Consts) (payload : payload_s) (data : data_s) :
    battery_level_value data ≤ 31 ∧
    (build_payload k payload data).battery = battery_level_value data ∧
    (build_payload k payload data).battery ≤ 31 := by
  have hle := battery_level_value_le data
  have hst := build_payload_battery_store k payload data
  rw [Nat.mod_eq_of_lt (by omega)] at hst
  exact ⟨hle, hst, by rw [hst]; exact hle⟩

/-- C17: the battery field is monotone in the battery value: if `a ≤ b` then the field
computed for `a` is at most the field computed for `b`. -/
theorem battery_field_monotone (k : Consts) (p q : payload_s) (d e : data_s)
    (h : d.battery ≤ e.battery) :
    (build_payload k p d).battery ≤ (build_payload k q e).battery := by
  rw [battery_field_clamp, battery_field_clamp]
  apply Nat.div_le_div_right
  simp only [clamp]
  split_ifs <;> omega

/-- Witness of C17: 2749 mV and 2750 mV fall into the levels 0 and 1. -/
theorem battery_field_monotone_witness :
    (build_payload sampleConsts ⟨0, 0, 0, 0, 0, 0, 0⟩ ⟨2749, false, 0, false⟩).battery ≤
      (build_payload sampleConsts ⟨0, 0, 0, 0, 0, 0, 0⟩ ⟨2750, true, 9, false⟩).battery :=
  battery_field_monotone sampleConsts ⟨0, 0, 0, 0, 0, 0, 0⟩ ⟨0, 0, 0, 0, 0, 0, 0⟩
    ⟨2749, false, 0, false⟩ ⟨2750, true, 9, false⟩ (by decide)

/-! ## The pending mask and the call log of a pass -/

/-- The pending mask after the RTC handler. -/
theorem rtc_stage_pending (k : Consts) (s : LoopState) :
    (rtc_stage k s).pending_interrupt =
      if is_pending s.pending_interrupt k.INTERRUPT_MASK_RTC then
        clear_mask s.pending_interrupt k.INTERRUPT_MASK_RTC
      else s.pending_interrupt := by
  unfold rtc_stage
  split_ifs <;> rfl

/-- The pending mask after a button handler that does not reset. -/
theorem button_stage_pending (k : Consts) (s : LoopState) (i : PassInput)
    (h : (button_stage k s i).reset = false) :
    (button_stage k s i).state.pending_interrupt =
      if is_pending s.pending_interrupt k.INTERRUPT_MASK_BUTTON then
        clear_mask s.pending_interrupt k.INTERRUPT_MASK_BUTTON
      else s.pending_interrupt := by
  revert h
  unfold button_stage
  split_ifs <;> simp

/-- The pending mask after the accelerometer handler. -/
theorem motion_stage_pending (k : Consts) (s : LoopState) (i : PassInput) :
    (motion_stage k s i).state.pending_interrupt =
      if is_pending s.pending_interrupt k.INTERRUPT_MASK_FXOS8700 then
        clear_mask s.pending_interrupt k.INTERRUPT_MASK_FXOS8700
      else s.pending_interrupt := by
  unfold motion_stage
  split_ifs <;> rfl

/-- Lines 185-209 do not touch the pending mask. -/
theorem send_stage_pending (k : Consts) (s : LoopState) (i : PassInput) :
    (send_stage k s i).state.pending_interrupt = s.pending_interrupt := by
  unfold send_stage
  split_ifs <;> rfl

/-- The call log of a pass that does not end in a reset, stage by stage. -/
theorem pass_trace_no_reset (k : Consts) (s : LoopState) (i : PassInput)
    (h : (pass k s i).reset = false) :
    (pass k s i).trace =
      [Call.BATTERY_handler (i.battery_level % 65536)] ++
      (button_stage k (rtc_stage k { s with battery_level := i.battery_level % 65536 }) i).trace ++
      (motion_stage k (button_stage k
        (rtc_stage k { s with battery_level := i.battery_level % 65536 }) i).state i).trace ++
      (send_stage k (before_send k s i) i).trace ++
      sleep_stage (pass k s i).state := by
  rw [pass_reset_eq] at h
  simp [pass, h, before_send]

/-- A button handler that does not reset does not call `SENSIT_API_reset` or
`SENSIT_API_sleep`. -/
theorem button_stage_calls (k : Consts) (s : LoopState) (i : PassInput)
    (h : (button_stage k s i).reset = false) :
    resetCalls (button_stage k s i).trace = 0 ∧ sleepCalls (button_stage k s i).trace = 0 := by
  revert h
  unfold button_stage
  split_ifs <;> simp [resetCalls, sleepCalls]

/-- The accelerometer handler does not call `SENSIT_API_reset` or `SENSIT_API_sleep`. -/
theorem motion_stage_calls (k : Consts) (s : LoopState) (i : PassInput) :
    resetCalls (motion_stage k s i).trace = 0 ∧ sleepCalls (motion_stage k s i).trace = 0 := by
  unfold motion_stage
  split_ifs <;> simp [resetCalls, sleepCalls]

/-- Lines 185-209 do not call `SENSIT_API_reset` or `SENSIT_API_sleep`. -/
theorem send_stage_calls (k : Consts) (s : LoopState) (i : PassInput) :
    resetCalls (send_stage k s i).trace = 0 ∧ sleepCalls (send_stage k s i).trace = 0 := by
  unfold send_stage
  split_ifs <;> simp [resetCalls, sleepCalls]

/-- A pass that does not end in a reset never calls `SENSIT_API_reset`, and it calls
`SENSIT_API_sleep` once if the pending mask is zero at line 212 and not at all otherwise. -/
theorem pass_no_reset_calls (k : Consts) (s : LoopState) (i : PassInput)
    (h : (pass k s i).reset = false) :
    resetCalls (pass k s i).trace = 0 ∧
    sleepCalls (pass k s i).trace =
      if (pass k s i).state.pending_interrupt = 0 then 1 else 0 := by
  have ht := pass_trace_no_reset k s i h
  rw [pass_reset_eq] at h
  have hb := button_stage_calls k _ i h
  have hm := motion_stage_calls k (button_stage k
    (rtc_stage k { s with battery_level := i.battery_level % 65536 }) i).state i
  have hs := send_stage_calls k (before_send k s i) i
  simp only [resetCalls, sleepCalls] at hb hm hs
  rw [ht]
  simp only [resetCalls, sleepCalls, List.count_append, hb.1, hb.2, hm.1, hm.2, hs.1, hs.2,
    sleep_stage]
  split_ifs <;> simp

/-! ## When a pass transmits -/

/-- With `send` set at line 185, the call log of lines 185-209 holds the radio call with
the built payload and length 4. -/
theorem send_stage_call_mem (k : Consts) (s : LoopState) (i : PassInput)
    (h : s.send = true) :
    Call.RADIO_API_send_message k.RGB_BLUE (build_payload k s.payload s.data) 4 i.err ∈
      (send_stage k s i).trace := by
  simp [send_stage, h]

/-- Over a run with no reset that starts with `send` clear, `send` is clear at the end: it
is clear at the start of every pass of the loop. -/
theorem runState_send (k : Consts) (s : LoopState) (ins : List PassInput)
    (hs : s.send = false) (hr : ∀ r ∈ runResults k s ins, r.reset = false) :
    (runState k s ins).send = false := by
  induction ins generalizing s with
  | nil => exact hs
  | cons i is ih =>
    have h0 := hr _ (step_mem_runResults k s i is)
    rw [runResults_cons k s i is h0] at hr
    rw [runState_cons k s i is h0]
    refine ih _ ?_ (fun r hmem => hr r (List.mem_cons_of_mem _ hmem))
    obtain ⟨hst, _, _⟩ := pass_no_reset k (arrive s i.arrived) i h0
    show (pass k (arrive s i.arrived) i).state.send = false
    rw [hst]
    cases hb : (before_send k (arrive s i.arrived) i).send
    · rw [send_stage_idle k _ i hb]
      exact hb
    · exact (send_stage_sends k _ i hb).2.2.2.2.1

/-- C12: in a pass that does not end in a reset (`send` is clear at its start, as it is at
the start of every pass), a payload is built and handed to the radio, with length 4, if the
timer bit is pending at the start of the pass, and nothing is sent if it is not; `send` is
clear again after the pass, so no request is carried to a later pass. -/
theorem transmit_iff_timer (k : Consts) (s : LoopState) (i : PassInput)
    (hs : s.send = false) (hr : (pass k s i).reset = false) :
    (is_pending s.pending_interrupt k.INTERRUPT_MASK_RTC = true →
      ∃ p, (pass k s i).sent = [(p, i.err)] ∧
        Call.RADIO_API_send_message k.RGB_BLUE p 4 i.err ∈ (pass k s i).trace) ∧
    (is_pending s.pending_interrupt k.INTERRUPT_MASK_RTC = false → (pass k s i).sent = []) ∧
    ((pass k s i).sent ≠ [] ↔ is_pending s.pending_interrupt k.INTERRUPT_MASK_RTC = true) ∧
    (pass k s i).state.send = false := by
  obtain ⟨hst, hsent, _⟩ := pass_no_reset k s i hr
  have ht := pass_trace_no_reset k s i hr
  have hbs := (before_send_frame k s i).2.2
  rw [hs, Bool.false_or] at hbs
  have hyes : is_pending s.pending_interrupt k.INTERRUPT_MASK_RTC = true →
      ∃ p, (pass k s i).sent = [(p, i.err)] ∧
        Call.RADIO_API_send_message k.RGB_BLUE p 4 i.err ∈ (pass k s i).trace := by
    intro hp
    rw [hp] at hbs
    refine ⟨build_payload k (before_send k s i).payload (before_send k s i).data, ?_, ?_⟩
    · rw [hsent, (send_stage_sends k _ i hbs).1]
    · rw [ht]
      simp only [List.mem_append]
      exact Or.inl (Or.inr (send_stage_call_mem k _ i hbs))
  have hno : is_pending s.pending_interrupt k.INTERRUPT_MASK_RTC = false →
      (pass k s i).sent = [] := by
    intro hp
    rw [hp] at hbs
    rw [hsent, send_stage_idle k _ i hbs]
    rfl
  refine ⟨hyes, hno, ?_, ?_⟩
  · constructor
    · intro hne
      cases hp : is_pending s.pending_interrupt k.INTERRUPT_MASK_RTC
      · exact absurd (hno hp) hne
      · rfl
    · intro hp
      obtain ⟨p, h1, _⟩ := hyes hp
      rw [h1]
      simp
  · rw [hst]
    cases hb : (before_send k s i).send
    · rw [send_stage_idle k _ i hb]
      exact hb
    · exact (send_stage_sends k _ i hb).2.2.2.2.1

/-- Witness of C12: timer and motion interrupt pending (mask 9) in the initial state. -/
theorem transmit_iff_timer_witness :
    (is_pending 9 sampleConsts.INTERRUPT_MASK_RTC = true →
      ∃ p, (pass sampleConsts ⟨9, false, 0, ⟨0, false, 0, false⟩, ⟨0, 0, 0, 0, 0, 0, 0⟩⟩
          ⟨0, 3000, 0, true, 0⟩).sent = [(p, 0)] ∧
        Call.RADIO_API_send_message sampleConsts.RGB_BLUE p 4 0 ∈
          (pass sampleConsts ⟨9, false, 0, ⟨0, false, 0, false⟩, ⟨0, 0, 0, 0, 0, 0, 0⟩⟩
            ⟨0, 3000, 0, true, 0⟩).trace) ∧
    (is_pending 9 sampleConsts.INTERRUPT_MASK_RTC = false →
      (pass sampleConsts ⟨9, false, 0, ⟨0, false, 0, false⟩, ⟨0, 0, 0, 0, 0, 0, 0⟩⟩
        ⟨0, 3000, 0, true, 0⟩).sent = []) ∧
    ((pass sampleConsts ⟨9, false, 0, ⟨0, false, 0, false⟩, ⟨0, 0, 0, 0, 0, 0, 0⟩⟩
        ⟨0, 3000, 0, true, 0⟩).sent ≠ [] ↔
      is_pending 9 sampleConsts.INTERRUPT_MASK_RTC = true) ∧
    (pass sampleConsts ⟨9, false, 0, ⟨0, false, 0, false⟩, ⟨0, 0, 0, 0, 0, 0, 0⟩⟩
      ⟨0, 3000, 0, true, 0⟩).state.send = false :=
  transmit_iff_timer sampleConsts ⟨9, false, 0, ⟨0, false, 0, false⟩, ⟨0, 0, 0, 0, 0, 0, 0⟩⟩
    ⟨0, 3000, 0, true, 0⟩ (by decide) (by decide)

/-- C18: a pass that starts with none of the timer, button and motion masks pending (and
`send` clear, as at the start of every pass) sends nothing, requests no reset, and leaves
vibration, button and the counter as they were. -/
theorem idle_pass_unchanged (k : Consts) (s : LoopState) (i : PassInput)
    (hs : s.send = false)
    (hrtc : is_pending s.pending_interrupt k.INTERRUPT_MASK_RTC = false)
    (hbutton : is_pending s.pending_interrupt k.INTERRUPT_MASK_BUTTON = false)
    (hmotion : is_pending s.pending_interrupt k.INTERRUPT_MASK_FXOS8700 = false) :
    (pass k s i).sent = [] ∧
    (pass k s i).reset = false ∧
    resetCalls (pass k s i).trace = 0 ∧
    (pass k s i).state.data.vibration = s.data.vibration ∧
    (pass k s i).state.data.button = s.data.button ∧
    (pass k s i).state.data.event_counter = s.data.event_counter := by
  have hpass : pass k s i =
      { state := { s with battery_level := i.battery_level % 65536 }
        trace := [Call.BATTERY_handler (i.battery_level % 65536)] ++
          sleep_stage { s with battery_level := i.battery_level % 65536 }
        reset := false } := by
    simp [pass, rtc_stage, button_stage, motion_stage, send_stage, hs, hrtc, hbutton, hmotion]
  have hr : (pass k s i).reset = false := by rw [hpass]
  refine ⟨?_, hr, (pass_no_reset_calls k s i hr).1, ?_, ?_, ?_⟩
  · rw [hpass]
    simp [PassResult.sent, sentMessages_append, sentMessages_sleep_stage, sentMessages]
  · rw [hpass]
  · rw [hpass]
  · rw [hpass]

/-- Witness of C18: only bit 2 (none of the three masks) is pending; vibration, button
and counter 7 are kept. -/
theorem idle_pass_unchanged_witness :
    (pass sampleConsts ⟨4, false, 0, ⟨0, true, 7, true⟩, ⟨0, 0, 0, 0, 0, 0, 0⟩⟩
      ⟨0, 3000, 4, true, 0⟩).sent = [] ∧
    (pass sampleConsts ⟨4, false, 0, ⟨0, true, 7, true⟩, ⟨0, 0, 0, 0, 0, 0, 0⟩⟩
      ⟨0, 3000, 4, true, 0⟩).reset = false ∧
    resetCalls (pass sampleConsts ⟨4, false, 0, ⟨0, true, 7, true⟩, ⟨0, 0, 0, 0, 0, 0, 0⟩⟩
      ⟨0, 3000, 4, true, 0⟩).trace = 0 ∧
    (pass sampleConsts ⟨4, false, 0, ⟨0, true, 7, true⟩, ⟨0, 0, 0, 0, 0, 0, 0⟩⟩
      ⟨0, 3000, 4, true, 0⟩).state.data.vibration = true ∧
    (pass sampleConsts ⟨4, false, 0, ⟨0, true, 7, true⟩, ⟨0, 0, 0, 0, 0, 0, 0⟩⟩
      ⟨0, 3000, 4, true, 0⟩).state.data.button = true ∧
    (pass sampleConsts ⟨4, false, 0, ⟨0, true, 7, true⟩, ⟨0, 0, 0, 0, 0, 0, 0⟩⟩
      ⟨0, 3000, 4, true, 0⟩).state.data.event_counter = 7 :=
  idle_pass_unchanged sampleConsts ⟨4, false, 0, ⟨0, true, 7, true⟩, ⟨0, 0, 0, 0, 0, 0, 0⟩⟩
    ⟨0, 3000, 4, true, 0⟩ (by decide) (by decide) (by decide) (by decide)

/-! ## Motion and button in a pass -/

/-- A button handler that does not reset does not change whether a mask sharing no bit
with the button mask is pending. -/
theorem button_stage_pending_of_disjoint (k : Consts) (s : LoopState) (i : PassInput)
    (m : Nat) (hd : k.INTERRUPT_MASK_BUTTON &&& m = 0)
    (h : (button_stage k s i).reset = false) :
    is_pending (button_stage k s i).state.pending_interrupt m =
      is_pending s.pending_interrupt m := by
  rw [button_stage_pending k s i h]
  split_ifs
  · exact is_pending_clear_mask_of_disjoint _ _ _ hd
  · rfl

/-- The RTC handler does not change whether a mask sharing no bit with the RTC mask is
pending. -/
theorem rtc_stage_pending_of_disjoint (k : Consts) (s : LoopState) (m : Nat)
    (hd : k.INTERRUPT_MASK_RTC &&& m = 0) :
    is_pending (rtc_stage k s).pending_interrupt m = is_pending s.pending_interrupt m := by
  rw [rtc_stage_pending]
  split_ifs
  · exact is_pending_clear_mask_of_disjoint _ _ _ hd
  · rfl

/-- With the motion interrupt pending, the accelerometer handler queries the driver and
stores its flag in `data.vibration`. -/
theorem motion_stage_handled (k : Consts) (s : LoopState) (i : PassInput)
    (h : is_pending s.pending_interrupt k.INTERRUPT_MASK_FXOS8700 = true) :
    (motion_stage k s i).trace = [Call.FXOS8700_clear_transient_interrupt i.vibration] ∧
    (motion_stage k s i).state.data.vibration = i.vibration := by
  unfold motion_stage
  cases hv : i.vibration <;> simp [h]

/-- Without a pending motion interrupt, the accelerometer handler does nothing. -/
theorem motion_stage_skipped (k : Consts) (s : LoopState) (i : PassInput)
    (h : is_pending s.pending_interrupt k.INTERRUPT_MASK_FXOS8700 = false) :
    motion_stage k s i = { state := s, trace := [], reset := false } := by
  simp [motion_stage, h]

/-- The special value of a built payload is 1 for a snapshot with vibration and 0 for one
without. -/
theorem build_payload_special_value (k : Consts) (payload : payload_s) (data : data_s) :
    (build_payload k payload data).special_value = data.vibration.toNat := by
  cases hv : data.vibration <;> simp [build_payload, hv]

/-- C16: in a pass with the timer and the motion interrupt both pending in which the
driver reports motion, the motion is recorded before the payload is encoded: the payload
sent in the pass carries the old counter plus one, modulo 65536, in its counter bytes, and
special value 1. -/
theorem motion_recorded_before_send (k : Consts) (s : LoopState) (i : PassInput)
    (hd1 : k.INTERRUPT_MASK_RTC &&& k.INTERRUPT_MASK_FXOS8700 = 0)
    (hd2 : k.INTERRUPT_MASK_BUTTON &&& k.INTERRUPT_MASK_FXOS8700 = 0)
    (hc : s.data.event_counter < 65536)
    (htimer : is_pending s.pending_interrupt k.INTERRUPT_MASK_RTC = true)
    (hmotion : is_pending s.pending_interrupt k.INTERRUPT_MASK_FXOS8700 = true)
    (hv : i.vibration = true)
    (hr : (pass k s i).reset = false) :
    ∃ p, (pass k s i).sent = [(p, i.err)] ∧
      p.event_counterMSB = ((s.data.event_counter + 1) % 65536) / 256 ∧
      p.event_counterLSB = ((s.data.event_counter + 1) % 65536) % 256 ∧
      p.counter = (s.data.event_counter + 1) % 65536 ∧
      p.special_value = 1 := by
  have hr0 := hr
  rw [pass_reset_eq] at hr0
  have hpend : is_pending (button_stage k
      (rtc_stage k { s with battery_level := i.battery_level % 65536 }) i).state.pending_interrupt
      k.INTERRUPT_MASK_FXOS8700 = true := by
    rw [button_stage_pending_of_disjoint k _ i _ hd2 hr0,
      rtc_stage_pending_of_disjoint k _ _ hd1]
    exact hmotion
  obtain ⟨htr, hvib⟩ := motion_stage_handled k _ i hpend
  obtain ⟨_, hsent, hmo⟩ := pass_no_reset k s i hr
  have hdet : (pass k s i).motionDetected = true := by
    rw [hmo, htr, hv]
    exact List.mem_singleton_self _
  have hcnt := before_send_counter k s i hc hr
  rw [hdet] at hcnt
  have hsend := before_send_send_of_timer k s i htimer
  have hb := build_payload_counter_bytes k (before_send k s i).payload (before_send k s i).data
  have hbv : (before_send k s i).data.vibration = true := by
    unfold before_send
    rw [hvib, hv]
  have hlt : (before_send k s i).data.event_counter < 65536 := by
    rw [hcnt]; exact Nat.mod_lt _ (by norm_num)
  refine ⟨build_payload k (before_send k s i).payload (before_send k s i).data, ?_, ?_, ?_, ?_, ?_⟩
  · rw [hsent, (send_stage_sends k _ i hsend).1]
  · rw [hb.1, hcnt]
    simp only [Bool.toNat_true]
    omega
  · rw [hb.2, hcnt]
    simp only [Bool.toNat_true]
  · rw [build_payload_counter_eq k _ _ hlt, hcnt]
    simp only [Bool.toNat_true]
  · rw [build_payload_special_value, hbv]
    rfl

/-- Witness of C16: timer and motion interrupt pending (mask 9) at counter 65535, so the
payload carries 0 and special value 1. -/
theorem motion_recorded_before_send_witness :
    ∃ p, (pass sampleConsts ⟨9, false, 0, ⟨0, false, 65535, false⟩, ⟨0, 0, 0, 0, 0, 0, 0⟩⟩
        ⟨0, 3000, 0, true, 0⟩).sent = [(p, 0)] ∧
      p.event_counterMSB = ((65535 + 1) % 65536) / 256 ∧
      p.event_counterLSB = ((65535 + 1) % 65536) % 256 ∧
      p.counter = (65535 + 1) % 65536 ∧
      p.special_value = 1 :=
  motion_recorded_before_send sampleConsts
    ⟨9, false, 0, ⟨0, false, 65535, false⟩, ⟨0, 0, 0, 0, 0, 0, 0⟩⟩ ⟨0, 3000, 0, true, 0⟩
    (by decide) (by decide) (by decide) (by decide) (by decide) (by decide) (by decide)

/-- Up to line 185 a pass does not write `data.button`. -/
theorem before_send_button (k : Consts) (s : LoopState) (i : PassInput) :
    (before_send k s i).data.button = s.data.button := by
  have hr := rtc_stage_frame k { s with battery_level := i.battery_level % 65536 }
  have hb := button_stage_frame k (rtc_stage k { s with battery_level := i.battery_level % 65536 }) i
  have hm := motion_stage_frame k (button_stage k
    (rtc_stage k { s with battery_level := i.battery_level % 65536 }) i).state i
  unfold before_send
  rw [hm.2.2.2.1, hb.1, hr.1]

/-- No pass sets `data.button`: after a pass that sends nothing it is what it was, and
after a pass that sends it is false. -/
theorem pass_button (k : Consts) (s : LoopState) (i : PassInput) :
    ((pass k s i).sent = [] → (pass k s i).state.data.button = s.data.button) ∧
    ((pass k s i).sent ≠ [] → (pass k s i).state.data.button = false) := by
  cases h : (pass k s i).reset
  · obtain ⟨hst, hsent, _⟩ := pass_no_reset k s i h
    cases hb : (before_send k s i).send
    · rw [send_stage_idle k _ i hb] at hst hsent
      refine ⟨fun _ => by rw [hst]; exact before_send_button k s i, ?_⟩
      intro hne
      exact absurd hsent hne
    · obtain ⟨h1, _, h3, _⟩ := send_stage_sends k (before_send k s i) i hb
      refine ⟨?_, fun _ => by rw [hst]; exact h3⟩
      intro hnil
      rw [hsent, h1] at hnil
      simp at hnil
  · obtain ⟨_, hsent, _, hdata⟩ := pass_reset k s i h
    exact ⟨fun _ => by rw [hdata], fun hne => absurd hsent hne⟩

/-- Over any run that starts with `data.button` false, `data.button` is false at the end:
from the initial state the button flag is never true. -/
theorem runState_button (k : Consts) (s : LoopState) (ins : List PassInput)
    (hs : s.data.button = false) : (runState k s ins).data.button = false := by
  induction ins generalizing s with
  | nil => exact hs
  | cons i is ih =>
    have hstep : (step k s i).state.data.button = false := by
      show (pass k (arrive s i.arrived) i).state.data.button = false
      by_cases hnil : (pass k (arrive s i.arrived) i).sent = []
      · rw [(pass_button k _ i).1 hnil]
        exact hs
      · exact (pass_button k _ i).2 hnil
    simp only [runState]
    split_ifs
    · exact hstep
    · exact ih _ hstep

/-- C14, the code at a concrete pass: the button interrupt is pending (mask 2), the handler
reports one press (not four), nothing is sent, and the button flag is false after the
pass, not true. -/
theorem button_interrupt_not_recorded :
    is_pending 2 sampleConsts.INTERRUPT_MASK_BUTTON = true ∧
    (1 : Nat) ≠ sampleConsts.BUTTON_FOUR_PRESSES ∧
    (pass sampleConsts ⟨2, false, 0, ⟨0, false, 0, false⟩, ⟨0, 0, 0, 0, 0, 0, 0⟩⟩
      ⟨0, 3000, 1, false, 0⟩).sent = [] ∧
    (pass sampleConsts ⟨2, false, 0, ⟨0, false, 0, false⟩, ⟨0, 0, 0, 0, 0, 0, 0⟩⟩
      ⟨0, 3000, 1, false, 0⟩).reset = false ∧
    Call.BUTTON_handler 1 ∈
      (pass sampleConsts ⟨2, false, 0, ⟨0, false, 0, false⟩, ⟨0, 0, 0, 0, 0, 0, 0⟩⟩
        ⟨0, 3000, 1, false, 0⟩).trace ∧
    (pass sampleConsts ⟨2, false, 0, ⟨0, false, 0, false⟩, ⟨0, 0, 0, 0, 0, 0, 0⟩⟩
      ⟨0, 3000, 1, false, 0⟩).state.data.button ≠ true := by
  decide

/-- C14 as amended: in a pass in which the button interrupt is pending, the classification
is not four presses and no send is attempted, the button handler runs, the pass does not
reset, and the button flag after the pass is the flag before the pass: the pass does not
set it. -/
theorem button_flag_not_set (k : Consts) (s : LoopState) (i : PassInput)
    (hd : k.INTERRUPT_MASK_RTC &&& k.INTERRUPT_MASK_BUTTON = 0)
    (hbutton : is_pending s.pending_interrupt k.INTERRUPT_MASK_BUTTON = true)
    (hfour : i.btn ≠ k.BUTTON_FOUR_PRESSES)
    (hsent : (pass k s i).sent = []) :
    (pass k s i).reset = false ∧
    Call.BUTTON_handler i.btn ∈ (pass k s i).trace ∧
    (pass k s i).state.data.button = s.data.button := by
  have hp := rtc_stage_pending_button k { s with battery_level := i.battery_level % 65536 } hd
  have hpend : is_pending (rtc_stage k
      { s with battery_level := i.battery_level % 65536 }).pending_interrupt
      k.INTERRUPT_MASK_BUTTON = true := by
    rw [hp]; exact hbutton
  have hr : (pass k s i).reset = false := by
    rw [pass_reset_eq]
    simp [button_stage, hpend, hfour]
  refine ⟨hr, ?_, (pass_button k s i).1 hsent⟩
  rw [pass_trace_no_reset k s i hr]
  simp [button_stage, hpend, hfour]

/-- Witness of C14 as amended: the button flag is false before and after a pass with one
button press. -/
theorem button_flag_not_set_witness :
    (pass sampleConsts ⟨2, false, 0, ⟨0, false, 0, false⟩, ⟨0, 0, 0, 0, 0, 0, 0⟩⟩
      ⟨0, 3000, 1, false, 0⟩).reset = false ∧
    Call.BUTTON_handler 1 ∈
      (pass sampleConsts ⟨2, false, 0, ⟨0, false, 0, false⟩, ⟨0, 0, 0, 0, 0, 0, 0⟩⟩
        ⟨0, 3000, 1, false, 0⟩).trace ∧
    (pass sampleConsts ⟨2, false, 0, ⟨0, false, 0, false⟩, ⟨0, 0, 0, 0, 0, 0, 0⟩⟩
      ⟨0, 3000, 1, false, 0⟩).state.data.button = false :=
  button_flag_not_set sampleConsts ⟨2, false, 0, ⟨0, false, 0, false⟩, ⟨0, 0, 0, 0, 0, 0, 0⟩⟩
    ⟨0, 3000, 1, false, 0⟩ (by decide) (by decide) (by decide) (by decide)

/-! ## The pending mask after a pass -/

/-- A single-bit mask `2 ^ a` is pending exactly if bit `a` of the pending mask is set. -/
theorem is_pending_two_pow (p a : Nat) : is_pending p (2 ^ a) = p.testBit a := by
  unfold is_pending
  cases hb : p.testBit a
  · rw [decide_eq_false_iff_not]
    intro h
    have := congrArg (fun n => Nat.testBit n a) h
    simp [Nat.testBit_and, Nat.testBit_two_pow_self, hb] at this
  · rw [decide_eq_true_iff]
    apply Nat.eq_of_testBit_eq
    intro j
    rw [Nat.testBit_and, Nat.testBit_two_pow]
    by_cases hj : a = j
    · subst hj
      simp [hb]
    · simp [hj]

/-- Handling a single-bit interrupt source (clear the bit if it is pending) leaves the bit
clear and every other bit as it was. -/
theorem testBit_handled (p a j : Nat) :
    (if is_pending p (2 ^ a) then clear_mask p (2 ^ a) else p).testBit j =
      (p.testBit j && !decide (a = j)) := by
  rw [is_pending_two_pow]
  split_ifs with h
  · rw [testBit_clear_mask, Nat.testBit_two_pow]
  · by_cases hj : a = j
    · subst hj
      simp [h]
    · simp [hj]

/-- The pending mask after a pass that does not end in a reset, for single-bit masks: the
three handled bits are clear and the others are as they were. -/
theorem pass_pending_testBit (k : Consts) (s : LoopState) (i : PassInput) (a b c j : Nat)
    (ha : k.INTERRUPT_MASK_RTC = 2 ^ a) (hb : k.INTERRUPT_MASK_BUTTON = 2 ^ b)
    (hc : k.INTERRUPT_MASK_FXOS8700 = 2 ^ c) (hr : (pass k s i).reset = false) :
    (pass k s i).state.pending_interrupt.testBit j =
      (s.pending_interrupt.testBit j && !decide (a = j) && !decide (b = j) &&
        !decide (c = j)) := by
  obtain ⟨hst, _, _⟩ := pass_no_reset k s i hr
  rw [pass_reset_eq] at hr
  rw [hst, send_stage_pending]
  unfold before_send
  rw [motion_stage_pending, button_stage_pending k _ i hr, rtc_stage_pending, ha, hb, hc,
    testBit_handled, testBit_handled, testBit_handled]

/-- C15: for every pending mask at the start of a pass that does not end in a reset (the
three masks being single bits), all three sources are handled in the pass: afterwards the
timer, button and motion bits are clear, every other bit of the mask is unchanged, and
`SENSIT_API_sleep` is called if and only if the resulting mask is zero. -/
theorem pass_handles_all_sources (k : Consts) (s : LoopState) (i : PassInput) (a b c : Nat)
    (ha : k.INTERRUPT_MASK_RTC = 2 ^ a) (hb : k.INTERRUPT_MASK_BUTTON = 2 ^ b)
    (hc : k.INTERRUPT_MASK_FXOS8700 = 2 ^ c) (hr : (pass k s i).reset = false) :
    (pass k s i).state.pending_interrupt.testBit a = false ∧
    (pass k s i).state.pending_interrupt.testBit b = false ∧
    (pass k s i).state.pending_interrupt.testBit c = false ∧
    (∀ j, j ≠ a → j ≠ b → j ≠ c →
      (pass k s i).state.pending_interrupt.testBit j = s.pending_interrupt.testBit j) ∧
    (Call.SENSIT_API_sleep ∈ (pass k s i).trace ↔ (pass k s i).state.pending_interrupt = 0) := by
  have hbit := fun j => pass_pending_testBit k s i a b c j ha hb hc hr
  refine ⟨?_, ?_, ?_, ?_, ?_⟩
  · rw [hbit]; simp
  · rw [hbit]; simp
  · rw [hbit]; simp
  · intro j h1 h2 h3
    rw [hbit]
    simp [Ne.symm h1, Ne.symm h2, Ne.symm h3]
  · have hcount := (pass_no_reset_calls k s i hr).2
    unfold sleepCalls at hcount
    rw [← List.count_pos_iff, hcount]
    split_ifs with h0
    · simp [h0]
    · simp [h0]

/-- Witness of C15: timer, button, bit 2 and motion pending (mask 15) with two button
presses; bit 2 alone is left, so the loop does not ask to sleep. -/
theorem pass_handles_all_sources_witness :
    (pass sampleConsts ⟨15, false, 0, ⟨0, false, 0, false⟩, ⟨0, 0, 0, 0, 0, 0, 0⟩⟩
      ⟨0, 3000, 2, true, 0⟩).state.pending_interrupt.testBit 0 = false ∧
    (pass sampleConsts ⟨15, false, 0, ⟨0, false, 0, false⟩, ⟨0, 0, 0, 0, 0, 0, 0⟩⟩
      ⟨0, 3000, 2, true, 0⟩).state.pending_interrupt.testBit 1 = false ∧
    (pass sampleConsts ⟨15, false, 0, ⟨0, false, 0, false⟩, ⟨0, 0, 0, 0, 0, 0, 0⟩⟩
      ⟨0, 3000, 2, true, 0⟩).state.pending_interrupt.testBit 3 = false ∧
    (∀ j, j ≠ 0 → j ≠ 1 → j ≠ 3 →
      (pass sampleConsts ⟨15, false, 0, ⟨0, false, 0, false⟩, ⟨0, 0, 0, 0, 0, 0, 0⟩⟩
        ⟨0, 3000, 2, true, 0⟩).state.pending_interrupt.testBit j = Nat.testBit 15 j) ∧
    (Call.SENSIT_API_sleep ∈
        (pass sampleConsts ⟨15, false, 0, ⟨0, false, 0, false⟩, ⟨0, 0, 0, 0, 0, 0, 0⟩⟩
          ⟨0, 3000, 2, true, 0⟩).trace ↔
      (pass sampleConsts ⟨15, false, 0, ⟨0, false, 0, false⟩, ⟨0, 0, 0, 0, 0, 0, 0⟩⟩
        ⟨0, 3000, 2, true, 0⟩).state.pending_interrupt = 0) :=
  pass_handles_all_sources sampleConsts
    ⟨15, false, 0, ⟨0, false, 0, false⟩, ⟨0, 0, 0, 0, 0, 0, 0⟩⟩ ⟨0, 3000, 2, true, 0⟩ 0 1 3
    (by decide) (by decide) (by decide) (by decide)

/-! ## The vibration flag over a run -/

/-- The last driver flag of a concatenated call log. -/
theorem lastFlag_append (v : Bool) (a b : List Call) :
    lastFlag v (a ++ b) = lastFlag (lastFlag v a) b := by
  induction a generalizing v with
  | nil => rfl
  | cons c t ih => cases c <;> simp [lastFlag, ih]

/-- The button handler does not query the motion driver. -/
theorem lastFlag_button_stage (k : Consts) (s : LoopState) (i : PassInput) (v : Bool) :
    lastFlag v (button_stage k s i).trace = v := by
  unfold button_stage
  split_ifs <;> simp [lastFlag]

/-- After the accelerometer handler, `data.vibration` is the flag of the driver query if
there was one, and what it was otherwise. -/
theorem lastFlag_motion_stage (k : Consts) (s : LoopState) (i : PassInput) :
    lastFlag s.data.vibration (motion_stage k s i).trace =
      (motion_stage k s i).state.data.vibration := by
  cases h : is_pending s.pending_interrupt k.INTERRUPT_MASK_FXOS8700
  · rw [motion_stage_skipped k s i h]
    rfl
  · obtain ⟨h1, h2⟩ := motion_stage_handled k s i h
    rw [h1, h2]
    rfl

/-- The sleep request does not query the motion driver. -/
theorem lastFlag_sleep_stage (s : LoopState) (v : Bool) : lastFlag v (sleep_stage s) = v := by
  unfold sleep_stage
  split_ifs <;> rfl

/-- After a pass that sends nothing and does not reset, `data.vibration` is the flag of
the driver query of the pass if there was one, and what it was otherwise. -/
theorem pass_vibration (k : Consts) (s : LoopState) (i : PassInput)
    (hr : (pass k s i).reset = false) (hsent : (pass k s i).sent = []) :
    (pass k s i).state.data.vibration = lastFlag s.data.vibration (pass k s i).trace := by
  obtain ⟨hst, hs, _⟩ := pass_no_reset k s i hr
  have ht := pass_trace_no_reset k s i hr
  have hidle : (before_send k s i).send = false := by
    cases hb : (before_send k s i).send
    · rfl
    · rw [hs, (send_stage_sends k _ i hb).1] at hsent
      simp at hsent
  rw [send_stage_idle k _ i hidle] at hst ht
  have hrt := rtc_stage_frame k { s with battery_level := i.battery_level % 65536 }
  have hbt := button_stage_frame k (rtc_stage k { s with battery_level := i.battery_level % 65536 }) i
  have hm := lastFlag_motion_stage k (button_stage k
    (rtc_stage k { s with battery_level := i.battery_level % 65536 }) i).state i
  rw [hbt.1, hrt.1] at hm
  rw [ht, lastFlag_append, lastFlag_append, lastFlag_append, lastFlag_append,
    lastFlag_sleep_stage]
  simp only [lastFlag, lastFlag_button_stage]
  rw [hm, hst]
  rfl

/-- C13, the code on a concrete run: from the initial state, a pass in which the driver
reports motion and then a pass in which the driver reports noise, with no send and no reset:
motion was detected in the run, yet vibration is false at the end; the noise pass alone
turns vibration from true to false and leaves the counter at 1. -/
theorem noise_clears_vibration :
    (∀ r ∈ runResults sampleConsts (init 0 ⟨0, 0, 0, 0, 0, 0, 0⟩)
        [⟨8, 3000, 0, true, 0⟩, ⟨8, 3000, 0, false, 0⟩], r.sent = [] ∧ r.reset = false) ∧
    (∃ r ∈ runResults sampleConsts (init 0 ⟨0, 0, 0, 0, 0, 0, 0⟩)
        [⟨8, 3000, 0, true, 0⟩, ⟨8, 3000, 0, false, 0⟩], r.motionDetected = true) ∧
    (runState sampleConsts (init 0 ⟨0, 0, 0, 0, 0, 0, 0⟩)
      [⟨8, 3000, 0, true, 0⟩, ⟨8, 3000, 0, false, 0⟩]).data.vibration = false ∧
    (runState sampleConsts (init 0 ⟨0, 0, 0, 0, 0, 0, 0⟩)
      [⟨8, 3000, 0, true, 0⟩]).data.vibration = true ∧
    (step sampleConsts (runState sampleConsts (init 0 ⟨0, 0, 0, 0, 0, 0, 0⟩)
      [⟨8, 3000, 0, true, 0⟩]) ⟨8, 3000, 0, false, 0⟩).state.data.vibration = false ∧
    (step sampleConsts (runState sampleConsts (init 0 ⟨0, 0, 0, 0, 0, 0, 0⟩)
      [⟨8, 3000, 0, true, 0⟩]) ⟨8, 3000, 0, false, 0⟩).state.data.event_counter = 1 := by
  decide

/-- C13 as amended: over a sequence of passes with no transmission attempt and no reset,
vibration at the end is the flag of the last query of the motion driver in the sequence
(true for motion, false for noise), or its value at the start if the driver was not
queried; the counter advances by the number of passes that detected motion, so a noise
interrupt leaves it unchanged. -/
theorem vibration_is_last_report (k : Consts) (s : LoopState) (ins : List PassInput)
    (hc : s.data.event_counter < 65536)
    (h : ∀ r ∈ runResults k s ins, r.reset = false ∧ r.sent = []) :
    (runState k s ins).data.vibration = lastRunFlag s.data.vibration (runResults k s ins) ∧
    (runState k s ins).data.event_counter =
      (s.data.event_counter + motionEvents (runResults k s ins)) % 65536 := by
  constructor
  · clear hc
    induction ins generalizing s with
    | nil => rfl
    | cons i is ih =>
      obtain ⟨hr, hsent⟩ := h _ (step_mem_runResults k s i is)
      rw [runResults_cons k s i is hr] at h ⊢
      rw [runState_cons k s i is hr, lastRunFlag,
        ih (step k s i).state (fun r hmem => h r (List.mem_cons_of_mem _ hmem))]
      have hv := pass_vibration k (arrive s i.arrived) i hr hsent
      rw [show (step k s i).state.data.vibration = lastFlag s.data.vibration (step k s i).trace
        from hv]
  · refine run_counter k s ins hc ?_
    intro r hr
    refine ⟨(h r hr).1, ?_⟩
    intro m hm
    rw [(h r hr).2] at hm
    simp at hm

/-- Witness of C13 as amended: motion, then noise, then a pass with no motion interrupt;
the last report was noise, so vibration is false, and the counter is 1. -/
theorem vibration_is_last_report_witness :
    (runState sampleConsts (init 0 ⟨0, 0, 0, 0, 0, 0, 0⟩)
      [⟨8, 3000, 0, true, 0⟩, ⟨8, 3000, 0, false, 0⟩, ⟨4, 3000, 0, true, 0⟩]).data.vibration =
      lastRunFlag false (runResults sampleConsts (init 0 ⟨0, 0, 0, 0, 0, 0, 0⟩)
        [⟨8, 3000, 0, true, 0⟩, ⟨8, 3000, 0, false, 0⟩, ⟨4, 3000, 0, true, 0⟩]) ∧
    (runState sampleConsts (init 0 ⟨0, 0, 0, 0, 0, 0, 0⟩)
      [⟨8, 3000, 0, true, 0⟩, ⟨8, 3000, 0, false, 0⟩, ⟨4, 3000, 0, true, 0⟩]).data.event_counter =
      (0 + motionEvents (runResults sampleConsts (init 0 ⟨0, 0, 0, 0, 0, 0, 0⟩)
        [⟨8, 3000, 0, true, 0⟩, ⟨8, 3000, 0, false, 0⟩, ⟨4, 3000, 0, true, 0⟩])) % 65536 :=
  vibration_is_last_report sampleConsts (init 0 ⟨0, 0, 0, 0, 0, 0, 0⟩)
    [⟨8, 3000, 0, true, 0⟩, ⟨8, 3000, 0, false, 0⟩, ⟨4, 3000, 0, true, 0⟩]
    (by decide) (by decide)

end SensIt
